import Mathlib

/-!
Verification of the recast-navigation-js navigation-mesh query engine.

The TypeScript wrapper in
`src/packages/recast-navigation-core/src/nav-mesh-query.ts` is translated
directly into Lean definitions (the `QueryFilter` and `NavMeshQuery`
structures and their methods below).  The native Detour query
implementation that the wrapper calls through `this.raw` is not part of
the given sources; where a claim depends on it, it is modelled from the
specification (every such definition carries a doc comment starting with
"Modelled from the spec:").  TS numbers are modelled as rationals, the
flat output buffers of the native interface as lists.
-/

namespace RecastNav

attribute [local semireducible] Rat.add Rat.mul Rat.sub Rat.inv

/-- A 3D point or vector, as consumed and produced by the wrapper
(`Vector3` in `utils`). -/
structure Vec3 where
  x : ℚ
  y : ℚ
  z : ℚ
deriving DecidableEq, Repr, Inhabited

/-- Polygon reference: an opaque unsigned integer, 0 meaning "none". -/
abbrev PolyRef := ℕ

/-- Modelled from the spec: the native status word; its success family is
flagged by a dedicated high bit, failure by another, and low detail bits
qualify the result. -/
def dtSuccess : ℕ := 2 ^ 30

/-- Modelled from the spec: the failure bit of the native status word. -/
def dtFailure : ℕ := 2 ^ 31

/-- Modelled from the spec: detail bit for an invalid input parameter
(stale/invalid reference, zero-capacity output bound). -/
def dtInvalidParam : ℕ := 2 ^ 3

/-- Modelled from the spec: detail bit for a caller output bound too small
to hold the whole result (the result is truncated, not an error). -/
def dtBufferTooSmall : ℕ := 2 ^ 4

/-- Modelled from the spec: detail bit for an out-of-range area id passed
to the filter cost table (the invalid-area error). -/
def dtInvalidAreaDetail : ℕ := 2 ^ 5

/-- Modelled from the spec: detail bit marking a best-effort result that
did not reach the goal (search exhausted / unreachable goal). -/
def dtDetailPartialResult : ℕ := 2 ^ 6

/-- Failure status used when a query input reference or bound is invalid. -/
def statusFailInvalidParam : ℕ := dtFailure + dtInvalidParam

/-- Failure status for an out-of-range area id. -/
def statusFailInvalidArea : ℕ := dtFailure + dtInvalidAreaDetail

namespace Detour

/-- Modelled from the spec: `Raw.Detour.statusSucceed`, true when the
success bit of the status word is set. -/
def statusSucceed (status : ℕ) : Bool :=
  status &&& dtSuccess != 0

end Detour

/-- Modelled from the spec: the native `dtQueryFilter` value consumed by
every query: include/exclude bitmasks over polygon flags and a 64-entry
per-area traversal cost table. -/
structure DtQueryFilter where
  includeFlags : ℕ
  excludeFlags : ℕ
  areaCost : Fin 64 → ℚ

/-- Modelled from the spec: a freshly constructed native filter —
include-all, exclude-none, unit cost for every area. -/
def DtQueryFilter.new : DtQueryFilter :=
  { includeFlags := 0xffff, excludeFlags := 0, areaCost := fun _ => 1 }

/-- Modelled from the spec: the native `getAreaCost`; area ids outside the
configured range 0–63 read as 0. -/
def DtQueryFilter.getAreaCost (f : DtQueryFilter) (i : ℤ) : ℚ :=
  if h : 0 ≤ i ∧ i < 64 then f.areaCost ⟨i.toNat, by omega⟩ else 0

/-- Modelled from the spec: the native `setAreaCost`; the engine validates
that the area id is within the configured range 0–63 and reports an
invalid-area error, leaving the table unchanged, when it is not. -/
def DtQueryFilter.setAreaCost (f : DtQueryFilter) (i : ℤ) (cost : ℚ) :
    ℕ × DtQueryFilter :=
  if h : 0 ≤ i ∧ i < 64 then
    (dtSuccess,
      { f with areaCost := fun j => if j = (⟨i.toNat, by omega⟩ : Fin 64) then cost else f.areaCost j })
  else
    (statusFailInvalidArea, f)

/-- Modelled from the spec: a polygon is passable for a filter iff its
flags intersect the include mask and avoid the exclude mask. -/
def passesFlags (f : DtQueryFilter) (flags : ℕ) : Bool :=
  (flags &&& f.includeFlags != 0) && (flags &&& f.excludeFlags == 0)

/-- The TS `QueryFilter` class: a thin wrapper holding a raw native
filter.  Its getters and setters delegate to the raw object. -/
structure QueryFilter where
  raw : DtQueryFilter

/-- TS getter `includeFlags`. -/
def QueryFilter.includeFlags (q : QueryFilter) : ℕ := q.raw.includeFlags

/-- TS setter `includeFlags`. -/
def QueryFilter.setIncludeFlags (q : QueryFilter) (flags : ℕ) : QueryFilter :=
  { q with raw := { q.raw with includeFlags := flags } }

/-- TS getter `excludeFlags`. -/
def QueryFilter.excludeFlags (q : QueryFilter) : ℕ := q.raw.excludeFlags

/-- TS setter `excludeFlags`. -/
def QueryFilter.setExcludeFlags (q : QueryFilter) (flags : ℕ) : QueryFilter :=
  { q with raw := { q.raw with excludeFlags := flags } }

/-- TS `QueryFilter` constructor with no argument: wraps a new raw filter. -/
def QueryFilter.new : QueryFilter := ⟨DtQueryFilter.new⟩

/-- TS `QueryFilter.getAreaCost`: delegates to the raw filter. -/
def QueryFilter.getAreaCost (q : QueryFilter) (i : ℤ) : ℚ :=
  q.raw.getAreaCost i

/-- TS `QueryFilter.setAreaCost`: delegates to the raw filter, forwarding
whatever the raw call reports and the state it leaves behind. -/
def QueryFilter.setAreaCost (q : QueryFilter) (i : ℤ) (cost : ℚ) :
    ℕ × QueryFilter :=
  let r := q.raw.setAreaCost i cost
  (r.1, ⟨r.2⟩)

/-! ## Geometry on the walkable plane

Modelled from the spec: polygons are convex polygons stored as vertex
lists; the closest-point operation projects onto the polygon plane
(taken as the plane y = 0) or clamps to the nearest boundary point. -/

/-- A point of the walkable plane, by its x and z coordinates. -/
abbrev Pt2 := ℚ × ℚ

/-- Squared distance between two plane points. -/
def dist2 (a b : Pt2) : ℚ :=
  (a.1 - b.1) * (a.1 - b.1) + (a.2 - b.2) * (a.2 - b.2)

/-- Closest point to `p` on the segment from `a` to `b` (degenerate
segments collapse to `a`). -/
def closestOnSeg (a b p : Pt2) : Pt2 :=
  let ax := b.1 - a.1
  let az := b.2 - a.2
  let len2 := ax * ax + az * az
  if len2 = 0 then a
  else
    let t := ((p.1 - a.1) * ax + (p.2 - a.2) * az) / len2
    let t := max 0 (min 1 t)
    (a.1 + t * ax, a.2 + t * az)

/-- Consecutive edges of a polygon given as a vertex list (each vertex
paired with its cyclic successor). -/
def polyEdges (vs : List Pt2) : List (Pt2 × Pt2) :=
  vs.zip (vs.rotate 1)

/-- Twice the signed area of the triangle a-b-c on the plane. -/
def cross2 (a b c : Pt2) : ℚ :=
  (b.1 - a.1) * (c.2 - a.2) - (c.1 - a.1) * (b.2 - a.2)

/-- Point-in-convex-polygon test: the point lies on the inner side of
every edge of the counter-clockwise vertex loop. -/
def insideConvex (vs : List Pt2) (p : Pt2) : Bool :=
  vs.length ≥ 3 && (polyEdges vs).all fun e => 0 ≤ cross2 e.1 e.2 p

/-- Closest point to `p` on the boundary of the polygon `vs` (the
polygon's first vertex if it has no edges). -/
def closestOnBoundary (vs : List Pt2) (p : Pt2) : Pt2 :=
  match polyEdges vs with
  | [] => (0, 0)
  | e :: es =>
    (es.foldl
      (fun best q =>
        let c := closestOnSeg q.1 q.2 p
        if dist2 c p < dist2 best p then c else best)
      (closestOnSeg e.1 e.2 p))

/-- Modelled from the spec: the true closest point on a polygon — the
projection onto the polygon plane when the point is over the polygon,
otherwise the nearest boundary point; the boolean reports whether the
point projected strictly over the polygon. -/
def closestOnPoly (vs : List Pt2) (p : Pt2) : Pt2 × Bool :=
  if insideConvex vs p then (p, true) else (closestOnBoundary vs p, false)

/-! ## The tiled mesh store

Modelled from the spec: the store is immutable for the query engine; a
polygon has a vertex loop, a 16-bit traversal flags mask, an area id and
one neighbor slot per shared edge.  Claims under verification involve a
single tile, so the model is a single-tile store; a polygon reference is
the polygon index plus one, reference 0 being "none". -/

/-- Modelled from the spec: one walkable convex polygon of the mesh. -/
structure NavPoly where
  verts : List Pt2
  flags : ℕ
  area : Fin 64
  neis : List ℕ
deriving Repr, Inhabited, DecidableEq

/-- Modelled from the spec: the tiled mesh store (single tile). -/
structure NavMesh where
  polys : List NavPoly
deriving Repr, Inhabited, DecidableEq

/-- True when a polygon reference denotes a polygon of the mesh. -/
def NavMesh.validRef (m : NavMesh) (r : PolyRef) : Bool :=
  r ≠ 0 && r - 1 < m.polys.length

/-- The polygon denoted by a reference (junk polygon when invalid). -/
def NavMesh.polyOf (m : NavMesh) (r : PolyRef) : NavPoly :=
  m.polys.getD (r - 1) default

/-- A polygon passes a filter iff its flags pass the filter masks. -/
def passesPoly (f : DtQueryFilter) (p : NavPoly) : Bool :=
  passesFlags f p.flags

/-- A reference is usable by a query when it is valid and its polygon
passes the filter. -/
def NavMesh.passableRef (m : NavMesh) (f : DtQueryFilter) (r : PolyRef) : Bool :=
  m.validRef r && passesPoly f (m.polyOf r)

/-- The passable neighbor references of a polygon: its adjacency slots,
turned into references and filtered for validity and passability. -/
def NavMesh.neighborsOf (m : NavMesh) (f : DtQueryFilter) (r : PolyRef) :
    List PolyRef :=
  ((m.polyOf r).neis.map (· + 1)).filter (m.passableRef f)

/-- Vertex centroid of a polygon (origin for an empty vertex list). -/
def NavPoly.centroid (p : NavPoly) : Pt2 :=
  let n : ℚ := p.verts.length
  if n = 0 then (0, 0)
  else ((p.verts.map Prod.fst).sum / n, (p.verts.map Prod.snd).sum / n)

/-- Lift a plane point to a `Vec3` on the walkable plane. -/
def toVec3 (p : Pt2) : Vec3 := ⟨p.1, 0, p.2⟩

/-- Project a `Vec3` to the walkable plane. -/
def toPt2 (v : Vec3) : Pt2 := (v.x, v.z)

/-- Modelled from the spec: the native closest-point-on-polygon query for
a positioned reference: clamps the position to the polygon of the
reference. -/
def NavMesh.closestPointOnPolyRef (m : NavMesh) (r : PolyRef) (pos : Vec3) :
    Vec3 × Bool :=
  let c := closestOnPoly (m.polyOf r).verts (toPt2 pos)
  (toVec3 c.1, c.2)

/-! ## Native result records

One record per native query, mirroring the out-parameters the wrapper
reads (status word, reference/point/flag outputs, flat output buffers
with their counts). -/

/-- Out-parameters of the native `findNearestPoly`. -/
structure RawFindNearestPolyResult where
  status : ℕ
  nearestRef : PolyRef
  nearestPoint : Vec3
  isOverPoly : Bool
deriving DecidableEq, Repr, Inhabited

/-- Out-parameters of the native `findPolysAroundCircle`. -/
structure RawCircleResult where
  status : ℕ
  resultRef : List PolyRef
  resultParent : List PolyRef
  resultCost : ℚ
  resultCount : ℕ
deriving DecidableEq, Repr, Inhabited

/-- Out-parameters of the native `queryPolygons`. -/
structure RawQueryPolysResult where
  status : ℕ
  polys : List PolyRef
  polyCount : ℕ
deriving DecidableEq, Repr, Inhabited

/-- Out-parameters of the native `closestPointOnPoly`. -/
structure RawClosestPointResult where
  status : ℕ
  closestPoint : Vec3
  posOverPoly : Bool
deriving DecidableEq, Repr, Inhabited

/-- Out-parameters of the native `moveAlongSurface`. -/
structure RawMoveResult where
  status : ℕ
  resultPosition : Vec3
  visited : List PolyRef
deriving DecidableEq, Repr, Inhabited

/-- Out-parameters of the native `findRandomPoint`. -/
structure RawFindRandomPointResult where
  status : ℕ
  randomPolyRef : PolyRef
  randomPoint : Vec3
deriving DecidableEq, Repr, Inhabited

/-- Out-parameters of the native `getPolyHeight`. -/
structure RawPolyHeightResult where
  status : ℕ
  height : ℚ
deriving DecidableEq, Repr, Inhabited

/-- Out-parameters of the native `findPath`: the corridor is the filled
prefix of the output array. -/
structure RawFindPathResult where
  status : ℕ
  polys : List PolyRef
deriving DecidableEq, Repr, Inhabited

/-- Out-parameters of the native `findStraightPath`: the flat coordinate
buffer plus the per-point flags and entered-polygon references, and the
point count. -/
structure RawStraightPathResult where
  status : ℕ
  straightPath : List ℚ
  straightPathFlags : List ℕ
  straightPathRefs : List PolyRef
  straightPathCount : ℕ
deriving DecidableEq, Repr, Inhabited

/-! ## Spec-modelled native engine: spatial index queries -/

/-- Least element of a list of rationals (0 for the empty list). -/
def lowerBnd : List ℚ → ℚ
  | [] => 0
  | x :: xs => xs.foldl min x

/-- Greatest element of a list of rationals (0 for the empty list). -/
def upperBnd : List ℚ → ℚ
  | [] => 0
  | x :: xs => xs.foldl max x

/-- Modelled from the spec: does the bounding box of a polygon (which
lies in the plane y = 0) intersect the axis-aligned query box around
`pos` with the given half-extents. -/
def polyBoxOverlap (p : NavPoly) (pos halfExtents : Vec3) : Bool :=
  let xs := p.verts.map Prod.fst
  let zs := p.verts.map Prod.snd
  decide (lowerBnd xs ≤ pos.x + halfExtents.x) &&
  decide (pos.x - halfExtents.x ≤ upperBnd xs) &&
  decide (lowerBnd zs ≤ pos.z + halfExtents.z) &&
  decide (pos.z - halfExtents.z ≤ upperBnd zs) &&
  decide (pos.y - halfExtents.y ≤ 0) && decide (0 ≤ pos.y + halfExtents.y)

namespace SpecEngine

/-- Modelled from the spec: the candidate polygons of a nearest-polygon
query — passable polygons whose bounds intersect the search box, paired
with their indices in scan order. -/
def nearestCandidates (m : NavMesh) (f : DtQueryFilter) (pos halfExtents : Vec3) :
    List (ℕ × NavPoly) :=
  m.polys.enum.filter fun ip =>
    passesPoly f ip.2 && polyBoxOverlap ip.2 pos halfExtents

/-- Modelled from the spec: the native `findNearestPoly` — among the
candidates, return the minimum-distance polygon reference together with
the closest point and the over-polygon flag; fail when no passable
polygon intersects the search box.  Ties keep the first candidate in
scan order, making the query deterministic. -/
def findNearestPoly (m : NavMesh) (pos halfExtents : Vec3)
    (f : DtQueryFilter) : RawFindNearestPolyResult :=
  let q := toPt2 pos
  match nearestCandidates m f pos halfExtents with
  | [] => ⟨dtFailure, 0, ⟨0, 0, 0⟩, false⟩
  | c :: cs =>
    let start := (c.1 + 1, closestOnPoly c.2.verts q)
    let best := cs.foldl
      (fun b q2 =>
        let cp := closestOnPoly q2.2.verts q
        if dist2 cp.1 q < dist2 b.2.1 q then (q2.1 + 1, cp) else b)
      start
    ⟨dtSuccess, best.1, toVec3 best.2.1, best.2.2⟩

/-- Modelled from the spec: the native `queryPolygons` — all passable
polygons whose bounds intersect the box, first-encountered up to the
caller bound, with an output count. -/
def queryPolygons (m : NavMesh) (center halfExtents : Vec3)
    (f : DtQueryFilter) (maxPolys : ℕ) : RawQueryPolysResult :=
  let refs := (m.polys.enum.filter fun ip =>
    passesPoly f ip.2 && polyBoxOverlap ip.2 center halfExtents).map (·.1 + 1)
  let out := refs.take maxPolys
  ⟨if refs.length ≤ maxPolys then dtSuccess else dtSuccess + dtBufferTooSmall,
    out, out.length⟩

/-- Modelled from the spec: the native `closestPointOnPoly` — fails on an
invalid reference, otherwise clamps the position to the polygon. -/
def closestPointOnPoly (m : NavMesh) (r : PolyRef) (pos : Vec3) :
    RawClosestPointResult :=
  if m.validRef r then
    let c := m.closestPointOnPolyRef r pos
    ⟨dtSuccess, c.1, c.2⟩
  else ⟨statusFailInvalidParam, ⟨0, 0, 0⟩, false⟩

/-- Modelled from the spec: the native `getPolyHeight` — the height of
the walkable plane under the position, failing when the position is not
over the polygon. -/
def getPolyHeight (m : NavMesh) (r : PolyRef) (pos : Vec3) :
    RawPolyHeightResult :=
  if m.validRef r && insideConvex (m.polyOf r).verts (toPt2 pos) then
    ⟨dtSuccess, 0⟩
  else ⟨dtFailure, 0⟩

/-- Modelled from the spec: the bounded graph expansion behind
`findPolysAroundCircle` — breadth-first over passable adjacency from the
start polygon, keeping polygons whose closest point lies within the
radius, each paired with the polygon it was reached from. -/
def circleLoop (m : NavMesh) (f : DtQueryFilter) (center : Pt2) (rad2 : ℚ) :
    ℕ → List (PolyRef × PolyRef) → List PolyRef → List (PolyRef × PolyRef) →
    List (PolyRef × PolyRef)
  | 0, _, _, acc => acc
  | _ + 1, [], _, acc => acc
  | fuel + 1, (r, par) :: rest, visited, acc =>
    if visited.contains r then circleLoop m f center rad2 fuel rest visited acc
    else
      let cp := closestOnPoly (m.polyOf r).verts center
      if dist2 cp.1 center ≤ rad2 then
        circleLoop m f center rad2 fuel
          (rest ++ (m.neighborsOf f r).map fun n => (n, r))
          (r :: visited) (acc ++ [(r, par)])
      else circleLoop m f center rad2 fuel rest (r :: visited) acc

/-- Modelled from the spec: the native `findPolysAroundCircle` — a
bounded best-first expansion measured along the walkable surface,
returning the polygons found up to the caller bound with their parent
references and an output count.  The single aggregate cost output of the
binding is left at zero (its interpretation is an open question of the
spec). -/
def findPolysAroundCircle (m : NavMesh) (startRef : PolyRef)
    (centerPos : Vec3) (radius : ℚ) (f : DtQueryFilter) (maxPolys : ℕ) :
    RawCircleResult :=
  if m.passableRef f startRef then
    let n := m.polys.length
    let pairs := circleLoop m f (toPt2 centerPos) (radius * radius)
      (n * n + n + 2) [(startRef, 0)] [] []
    let out := pairs.take maxPolys
    ⟨if pairs.length ≤ maxPolys then dtSuccess else dtSuccess + dtBufferTooSmall,
      out.map (·.1), out.map (·.2), 0, out.length⟩
  else ⟨statusFailInvalidParam, [], [], 0, 0⟩

/-- Modelled from the spec: one greedy step chain of the surface walk —
move to a not-yet-visited passable neighbor strictly closer to the
target, until the target is inside the current polygon or no neighbor
improves, clamping the final position to the current polygon. -/
def moveLoop (m : NavMesh) (f : DtQueryFilter) (e2 : Pt2) :
    ℕ → PolyRef → List PolyRef → Vec3 × List PolyRef
  | 0, cur, visited =>
    (toVec3 (closestOnPoly (m.polyOf cur).verts e2).1, visited)
  | fuel + 1, cur, visited =>
    if insideConvex (m.polyOf cur).verts e2 then (toVec3 e2, visited)
    else
      let curD := dist2 (closestOnPoly (m.polyOf cur).verts e2).1 e2
      let better := (m.neighborsOf f cur).filter fun nb =>
        !visited.contains nb &&
          decide (dist2 (closestOnPoly (m.polyOf nb).verts e2).1 e2 < curD)
      match better with
      | [] => (toVec3 (closestOnPoly (m.polyOf cur).verts e2).1, visited)
      | nb :: _ => moveLoop m f e2 fuel nb (visited ++ [nb])

/-- Modelled from the spec: the native `moveAlongSurface` — a direct
geometric walk across passable polygons toward the end position, bounded
by the caller's maximum visited-polygon count, returning the constrained
result position and the polygons crossed. -/
def moveAlongSurface (m : NavMesh) (startRef : PolyRef)
    (startPos endPos : Vec3) (f : DtQueryFilter) (maxVisitedSize : ℕ) :
    RawMoveResult :=
  if m.passableRef f startRef then
    let r := moveLoop m f (toPt2 endPos) maxVisitedSize startRef [startRef]
    ⟨dtSuccess, r.1, r.2⟩
  else ⟨statusFailInvalidParam, startPos, []⟩

/-- Modelled from the spec: the native `findRandomPoint`.  Randomness
lives in the engine-state layer; this pure view of one call draws the
first passable polygon and its centroid. -/
def findRandomPoint (m : NavMesh) (f : DtQueryFilter) :
    RawFindRandomPointResult :=
  match m.polys.enum.filter (fun ip => passesPoly f ip.2) with
  | [] => ⟨dtFailure, 0, ⟨0, 0, 0⟩⟩
  | c :: _ => ⟨dtSuccess, c.1 + 1, toVec3 c.2.centroid⟩

/-- Modelled from the spec: the native `getClosestPoint` helper — the
closest point of the nearest passable polygon, the zero vector when the
nearest-polygon query fails.  No status word reaches the caller. -/
def getClosestPoint (m : NavMesh) (pos halfExtents : Vec3)
    (f : DtQueryFilter) : Vec3 :=
  (findNearestPoly m pos halfExtents f).nearestPoint

/-- Modelled from the spec: the native `getRandomPointAround` helper —
a point of the nearest passable polygon around the position (randomness
lives in the engine-state layer); the zero vector on failure.  No status
word reaches the caller. -/
def getRandomPointAround (m : NavMesh) (pos : Vec3) (_radius : ℚ)
    (halfExtents : Vec3) (f : DtQueryFilter) : Vec3 :=
  (findNearestPoly m pos halfExtents f).nearestPoint

end SpecEngine

/-! ### Corridor search (path engine)

Modelled from the spec: a deterministic best-first expansion over the
polygon adjacency graph (polygons passing the filter are nodes, shared
edges are edges).  Edge weights are taken uniform: the spec's
centre-distance-times-area-cost weighting only orders expansions and
does not affect any property verified here, and exact Euclidean edge
lengths are not rational.  The search is bounded by an explicit fuel
standing for the node-pool capacity; when the goal is not reached the
best partial corridor (closest-to-goal visited polygon) is returned,
flagged partial.  A corridor longer than the caller bound is truncated
from the start, keeping the most progress. -/

/-- One expansion loop of the corridor search.  Queue entries carry the
polygon and the (reversed) corridor that reached it; popped entries are
accumulated for the best-partial fallback.  Returns the reversed
corridor of the goal, if reached, and the popped entries. -/
def bfsLoop (m : NavMesh) (f : DtQueryFilter) (goal : PolyRef) :
    ℕ → List (PolyRef × List PolyRef) → List PolyRef →
    List (PolyRef × List PolyRef) →
    Option (List PolyRef) × List (PolyRef × List PolyRef)
  | 0, _, _, acc => (none, acc)
  | _ + 1, [], _, acc => (none, acc)
  | fuel + 1, (r, path) :: rest, visited, acc =>
    if visited.contains r then bfsLoop m f goal fuel rest visited acc
    else if r = goal then (some path, acc)
    else
      bfsLoop m f goal fuel
        (rest ++ (m.neighborsOf f r).map fun n => (n, n :: path))
        (r :: visited) (acc ++ [(r, path)])

/-- The popped entry whose polygon centroid is closest to the goal
centroid (first such in pop order), for the best-partial fallback. -/
def pickBest (m : NavMesh) (goalC : Pt2) :
    List (PolyRef × List PolyRef) → Option (PolyRef × List PolyRef)
  | [] => none
  | a :: rest =>
    some (rest.foldl
      (fun best cur =>
        if dist2 (m.polyOf cur.1).centroid goalC <
            dist2 (m.polyOf best.1).centroid goalC then cur else best)
      a)

/-- Fuel of the bounded search, standing for the node-pool capacity:
enough to pop every queue entry a connected mesh can produce. -/
def searchFuel (m : NavMesh) : ℕ :=
  m.polys.length * m.polys.length + m.polys.length + 2

/-- Truncate a corridor to the caller bound, from the start (the spec
keeps the most progress), reporting whether truncation happened. -/
def truncCorridor (maxPathPolys : ℕ) (path : List PolyRef) :
    Bool × List PolyRef :=
  if path.length ≤ maxPathPolys then (false, path)
  else (true, path.drop (path.length - maxPathPolys))

namespace SpecEngine

/-- Modelled from the spec: the native `findPath` — validates the start
and end references against the mesh and the filter (immediate
invalid-start / invalid-end failure), returns the single-element
corridor when they coincide, and otherwise runs the bounded best-first
search, falling back to the best partial corridor when the goal is not
reached.  The positions only steer expansion order in the native engine
and do not affect the modelled result. -/
def findPath (m : NavMesh) (startRef endRef : PolyRef)
    (_startPos _endPos : Vec3) (f : DtQueryFilter) (maxPathPolys : ℕ) :
    RawFindPathResult :=
  if maxPathPolys = 0 then ⟨statusFailInvalidParam, []⟩
  else if ¬ m.passableRef f startRef then ⟨statusFailInvalidParam, []⟩
  else if ¬ m.passableRef f endRef then ⟨statusFailInvalidParam, []⟩
  else if startRef = endRef then ⟨dtSuccess, [startRef]⟩
  else
    match (bfsLoop m f endRef (searchFuel m) [(startRef, [startRef])] [] []).1 with
    | some revPath =>
      ⟨dtSuccess +
          (if (truncCorridor maxPathPolys revPath.reverse).1 then dtBufferTooSmall else 0),
        (truncCorridor maxPathPolys revPath.reverse).2⟩
    | none =>
      match pickBest m (m.polyOf endRef).centroid
          (bfsLoop m f endRef (searchFuel m) [(startRef, [startRef])] [] []).2 with
      | some e =>
        ⟨dtSuccess + dtDetailPartialResult +
            (if (truncCorridor maxPathPolys e.2.reverse).1 then dtBufferTooSmall else 0),
          (truncCorridor maxPathPolys e.2.reverse).2⟩
      | none => ⟨statusFailInvalidParam, []⟩

end SpecEngine

/-! ### String-pulling (straight path engine)

Modelled from the spec: the funnel algorithm over the corridor.  The
start position is clamped to the first corridor polygon and the end
position to the last; portals are the shared edges between consecutive
corridor polygons; the funnel narrows over the portals, the apex
advancing (and emitting a vertex) whenever a portal corner crosses the
opposite funnel side, using the signed-area turn test; coincident
portal corners make the apex test a no-op.  The final vertex is always
the clamped end, flagged path-end, with polygon reference "none".
Off-mesh connections and the optional crossing-vertex modes are outside
the verified claims and are not modelled. -/

/-- Modelled from the spec: flag on the first vertex of a straight path. -/
def dtStraightPathStart : ℕ := 1

/-- Modelled from the spec: flag on the last vertex of a straight path. -/
def dtStraightPathEnd : ℕ := 2

/-- One vertex of a straight path: position, per-vertex flag and the
reference of the polygon entered at the vertex. -/
structure SPVert where
  pos : Vec3
  flag : ℕ
  ref : PolyRef
deriving DecidableEq, Repr, Inhabited

/-- A funnel portal: its left and right corners and the polygon entered
when crossing it. -/
structure Portal where
  pl : Vec3
  pr : Vec3
  ref : PolyRef
deriving DecidableEq, Repr, Inhabited

/-- Twice the signed area of the triangle a-b-c on the walkable plane. -/
def triarea2 (a b c : Vec3) : ℚ :=
  (b.x - a.x) * (c.z - a.z) - (c.x - a.x) * (b.z - a.z)

/-- Modelled from the spec: the portal between two consecutive corridor
polygons — their shared edge; a degenerate portal (one shared vertex or
none) is treated as coincident corners. -/
def sharedPortal (a b : NavPoly) (bref : PolyRef) : Portal :=
  match a.verts.filter (fun v => b.verts.contains v) with
  | u :: v :: _ => ⟨toVec3 u, toVec3 v, bref⟩
  | [u] => ⟨toVec3 u, toVec3 u, bref⟩
  | [] => ⟨toVec3 b.centroid, toVec3 b.centroid, bref⟩

/-- The portals crossed along a corridor, in order. -/
def corridorPortals (m : NavMesh) (corr : List PolyRef) : List Portal :=
  (corr.zip corr.tail).map fun rr =>
    sharedPortal (m.polyOf rr.1) (m.polyOf rr.2) rr.2

/-- State of the funnel scan: next portal index, apex, funnel corners
with the portal indices they came from, and the vertices emitted so
far. -/
structure FunnelSt where
  i : ℕ
  apex : Vec3
  left : Vec3
  right : Vec3
  leftIdx : ℕ
  rightIdx : ℕ
  acc : List SPVert
deriving Repr

/-- The funnel scan.  Each portal is processed in a right phase and then
a left phase; a corner that stays inside the funnel tightens it, a
corner that crosses the opposite side relocates the apex there, emits a
vertex and restarts the scan after the apex portal.  Fuel bounds the
restarts. -/
def funnelLoop (portals : List Portal) :
    ℕ → Bool → FunnelSt → List SPVert
  | 0, _, st => st.acc
  | fuel + 1, phaseRight, st =>
    if st.i < portals.length then
      let p := portals.getD st.i default
      if phaseRight then
        if triarea2 st.apex st.right p.pr ≤ 0 then
          if st.apex = st.right ∨ 0 < triarea2 st.apex st.left p.pr then
            funnelLoop portals fuel false
              { st with right := p.pr, rightIdx := st.i }
          else
            let v : SPVert := ⟨st.left, 0, (portals.getD st.leftIdx default).ref⟩
            funnelLoop portals fuel true
              ⟨st.leftIdx + 1, st.left, st.left, st.left,
                st.leftIdx, st.leftIdx, st.acc ++ [v]⟩
        else funnelLoop portals fuel false st
      else
        if 0 ≤ triarea2 st.apex st.left p.pl then
          if st.apex = st.left ∨ triarea2 st.apex st.right p.pl < 0 then
            funnelLoop portals fuel true
              { st with left := p.pl, leftIdx := st.i, i := st.i + 1 }
          else
            let v : SPVert := ⟨st.right, 0, (portals.getD st.rightIdx default).ref⟩
            funnelLoop portals fuel true
              ⟨st.rightIdx + 1, st.right, st.right, st.right,
                st.rightIdx, st.rightIdx, st.acc ++ [v]⟩
        else funnelLoop portals fuel true { st with i := st.i + 1 }
    else st.acc

/-- Modelled from the spec: the whole straight path for a corridor — the
clamped start (flagged start, entering the first polygon), the interior
funnel vertices, and always the clamped end flagged path-end with
reference "none". -/
def fullStraightPath (m : NavMesh) (corr : List PolyRef)
    (startPos endPos : Vec3) : List SPVert :=
  match corr with
  | [] => []
  | p0 :: _ =>
    let sClamp := (m.closestPointOnPolyRef p0 startPos).1
    let eClamp := (m.closestPointOnPolyRef (corr.getLast?.getD 0) endPos).1
    let portals := ⟨sClamp, sClamp, p0⟩ ::
      (corridorPortals m corr ++ [⟨eClamp, eClamp, 0⟩])
    let fuel := (portals.length + 2) * (portals.length + 2)
    let interior := funnelLoop portals fuel true
      ⟨1, sClamp, sClamp, sClamp, 0, 0, []⟩
    ⟨sClamp, dtStraightPathStart, p0⟩ :: interior ++
      [⟨eClamp, dtStraightPathEnd, 0⟩]

/-- Flatten straight-path vertices into the native flat coordinate
buffer. -/
def flattenPts : List SPVert → List ℚ
  | [] => []
  | v :: vs => v.pos.x :: v.pos.y :: v.pos.z :: flattenPts vs

namespace SpecEngine

/-- Modelled from the spec: the native `findStraightPath` — fails on an
empty corridor, an invalid first or last corridor polygon or a zero
output bound; otherwise emits the straight path, truncated from the
start toward the end when the caller bound is reached before the goal,
with the truncated count reported alongside a success status. -/
def findStraightPath (m : NavMesh) (startPos endPos : Vec3)
    (path : List PolyRef) (maxStraightPathPoints : ℕ)
    (_options : ℕ) : RawStraightPathResult :=
  if maxStraightPathPoints = 0 ∨ path = [] ∨
      ¬ m.validRef (path.headD 0) ∨ ¬ m.validRef (path.getLast?.getD 0) then
    ⟨statusFailInvalidParam, [], [], [], 0⟩
  else
    ⟨if (fullStraightPath m path startPos endPos).length ≤ maxStraightPathPoints then dtSuccess
      else dtSuccess + dtBufferTooSmall,
      flattenPts ((fullStraightPath m path startPos endPos).take
        maxStraightPathPoints),
      ((fullStraightPath m path startPos endPos).take
        maxStraightPathPoints).map SPVert.flag,
      ((fullStraightPath m path startPos endPos).take
        maxStraightPathPoints).map SPVert.ref,
      ((fullStraightPath m path startPos endPos).take
        maxStraightPathPoints).length⟩

end SpecEngine

/-! ## The native interface consumed by the wrapper

The wrapper calls the native query object only through the functions
below; the wrapper-level theorems are stated for an arbitrary such
module, and the spec-modelled engine provides a concrete instance. -/

/-- The native query interface as consumed by the TS wrapper
(`this.raw`). -/
structure RawModule where
  findNearestPoly : Vec3 → Vec3 → DtQueryFilter → RawFindNearestPolyResult
  findPolysAroundCircle :
    PolyRef → Vec3 → ℚ → DtQueryFilter → ℕ → RawCircleResult
  queryPolygons : Vec3 → Vec3 → DtQueryFilter → ℕ → RawQueryPolysResult
  closestPointOnPoly : PolyRef → Vec3 → RawClosestPointResult
  getClosestPoint : Vec3 → Vec3 → DtQueryFilter → Vec3
  getRandomPointAround : Vec3 → ℚ → Vec3 → DtQueryFilter → Vec3
  moveAlongSurface : PolyRef → Vec3 → Vec3 → DtQueryFilter → ℕ → RawMoveResult
  findRandomPoint : DtQueryFilter → RawFindRandomPointResult
  getPolyHeight : PolyRef → Vec3 → RawPolyHeightResult
  findPath : PolyRef → PolyRef → Vec3 → Vec3 → DtQueryFilter → ℕ → RawFindPathResult
  findStraightPath : Vec3 → Vec3 → List PolyRef → ℕ → ℕ → RawStraightPathResult

/-- The spec-modelled engine packaged as a native module for a mesh. -/
def NavMesh.rawModule (m : NavMesh) : RawModule where
  findNearestPoly := fun pos he f => SpecEngine.findNearestPoly m pos he f
  findPolysAroundCircle := fun sr c rad f mp =>
    SpecEngine.findPolysAroundCircle m sr c rad f mp
  queryPolygons := fun c he f mp => SpecEngine.queryPolygons m c he f mp
  closestPointOnPoly := fun r pos => SpecEngine.closestPointOnPoly m r pos
  getClosestPoint := fun pos he f => SpecEngine.getClosestPoint m pos he f
  getRandomPointAround := fun pos rad he f =>
    SpecEngine.getRandomPointAround m pos rad he f
  moveAlongSurface := fun sr sp ep f mv =>
    SpecEngine.moveAlongSurface m sr sp ep f mv
  findRandomPoint := fun f => SpecEngine.findRandomPoint m f
  getPolyHeight := fun r pos => SpecEngine.getPolyHeight m r pos
  findPath := fun sr er sp ep f mp => SpecEngine.findPath m sr er sp ep f mp
  findStraightPath := fun sp ep path mx opt =>
    SpecEngine.findStraightPath m sp ep path mx opt

/-! ## The TS wrapper (`NavMeshQuery` in nav-mesh-query.ts)

Each method below is a direct translation of the corresponding method of
the TS class: defaults are filled the way the TS fills them, the native
call is made with the same arguments, and the returned record is built
from the same out-parameters.  TS option objects become option records;
TS flat arrays become lists whose `get` reads default to 0 out of
bounds. -/

/-- Options of `findNearestPoly` (filter, halfExtents). -/
structure FindNearestPolyOptions where
  filter : Option QueryFilter
  halfExtents : Option Vec3

/-- Options of `findPolysAroundCircle` and `queryPolygons`
(filter, maxPolys). -/
structure PolysOptions where
  filter : Option QueryFilter
  maxPolys : Option ℕ

/-- Options of `moveAlongSurface` (filter, maxVisitedSize). -/
structure MoveAlongSurfaceOptions where
  filter : Option QueryFilter
  maxVisitedSize : Option ℕ

/-- Options of `findRandomPoint` (filter). -/
structure FindRandomPointOptions where
  filter : Option QueryFilter

/-- Options of `getClosestPoint` and `getRandomPointAround`
(filter, halfExtents). -/
structure GetPointOptions where
  filter : Option QueryFilter
  halfExtents : Option Vec3

/-- Options of `findPath` (filter, maxPathPolys). -/
structure FindPathOptions where
  filter : Option QueryFilter
  maxPathPolys : Option ℕ

/-- Options of `findStraightPath`
(maxStraightPathPoints, straightPathOptions). -/
structure FindStraightPathOptions where
  maxStraightPathPoints : Option ℕ
  straightPathOptions : Option ℕ

/-- Options of `computePath`
(filter, maxPathPolys, maxStraightPathPoints). -/
structure ComputePathOptions where
  filter : Option QueryFilter
  maxPathPolys : Option ℕ
  maxStraightPathPoints : Option ℕ

/-- Result of the wrapper `findNearestPoly`. -/
structure FindNearestPolyResult where
  success : Bool
  status : ℕ
  nearestRef : PolyRef
  nearestPoint : Vec3
  isOverPoly : Bool
deriving DecidableEq, Repr

/-- Result of the wrapper `findPolysAroundCircle`. -/
structure FindPolysAroundCircleResult where
  success : Bool
  status : ℕ
  resultRefs : List PolyRef
  resultParents : List PolyRef
  resultCost : ℚ
  resultCount : ℕ
deriving DecidableEq, Repr

/-- Result of the wrapper `queryPolygons`. -/
structure QueryPolygonsResult where
  success : Bool
  status : ℕ
  polyRefs : List PolyRef
  polyCount : ℕ
deriving DecidableEq, Repr

/-- Result of the wrapper `closestPointOnPoly`. -/
structure ClosestPointOnPolyResult where
  success : Bool
  status : ℕ
  closestPoint : Vec3
  posOverPoly : Bool
deriving DecidableEq, Repr

/-- Result of the wrapper `moveAlongSurface`. -/
structure MoveAlongSurfaceResult where
  success : Bool
  status : ℕ
  resultPosition : Vec3
  visited : List PolyRef
deriving DecidableEq, Repr

/-- Result of the wrapper `findRandomPoint`. -/
structure FindRandomPointResult where
  success : Bool
  status : ℕ
  randomPolyRef : PolyRef
  randomPoint : Vec3
deriving DecidableEq, Repr

/-- Result of the wrapper `getPolyHeight`. -/
structure GetPolyHeightResult where
  success : Bool
  status : ℕ
  height : ℚ
deriving DecidableEq, Repr

/-- Result of the wrapper `findPath`. -/
structure FindPathResult where
  success : Bool
  status : ℕ
  polys : List PolyRef
deriving DecidableEq, Repr

/-- Result of the wrapper `findStraightPath`. -/
structure FindStraightPathResult where
  success : Bool
  status : ℕ
  straightPath : List ℚ
  straightPathFlags : List ℕ
  straightPathRefs : List PolyRef
  straightPathCount : ℕ
deriving DecidableEq, Repr

/-- Error information of a failed `computePath`. -/
structure ComputePathError where
  name : String
  status : Option ℕ
deriving DecidableEq, Repr

/-- Result of `computePath`. -/
structure ComputePathResult where
  success : Bool
  error : Option ComputePathError
  path : List Vec3
deriving DecidableEq, Repr

/-- The TS `NavMeshQuery` class: the raw native query object, the
default filter built by the constructor, and the default search
half-extents. -/
structure NavMeshQuery where
  raw : RawModule
  defaultFilter : QueryFilter
  defaultQueryHalfExtents : Vec3

/-- The TS `NavMeshQuery` constructor (branch adopting an existing raw
query object): stores the raw object, builds a fresh default filter and
sets its include flags to 0xffff and its exclude flags to 0; the default
query half-extents are (1, 1, 1). -/
def NavMeshQuery.create (raw : RawModule) : NavMeshQuery :=
  { raw := raw,
    defaultFilter := (QueryFilter.new.setIncludeFlags 0xffff).setExcludeFlags 0,
    defaultQueryHalfExtents := ⟨1, 1, 1⟩ }

/-- The query engine of a mesh, via the spec-modelled native module. -/
def NavMesh.query (m : NavMesh) : NavMeshQuery :=
  NavMeshQuery.create m.rawModule

/-- TS `NavMeshQuery.findNearestPoly`. -/
def NavMeshQuery.findNearestPoly (q : NavMeshQuery) (position : Vec3)
    (options : FindNearestPolyOptions) : FindNearestPolyResult :=
  let r := q.raw.findNearestPoly position
    (options.halfExtents.getD q.defaultQueryHalfExtents)
    ((options.filter.map QueryFilter.raw).getD q.defaultFilter.raw)
  { success := Detour.statusSucceed r.status, status := r.status,
    nearestRef := r.nearestRef, nearestPoint := r.nearestPoint,
    isOverPoly := r.isOverPoly }

/-- TS `NavMeshQuery.findPolysAroundCircle`. -/
def NavMeshQuery.findPolysAroundCircle (q : NavMeshQuery)
    (startRef : PolyRef) (centerPos : Vec3) (radius : ℚ)
    (options : PolysOptions) : FindPolysAroundCircleResult :=
  let filter := options.filter.getD q.defaultFilter
  let maxPolys := options.maxPolys.getD 256
  let r := q.raw.findPolysAroundCircle startRef centerPos radius
    filter.raw maxPolys
  { success := Detour.statusSucceed r.status, status := r.status,
    resultRefs := (List.range r.resultCount).map fun i => r.resultRef.getD i 0,
    resultParents :=
      (List.range r.resultCount).map fun i => r.resultParent.getD i 0,
    resultCost := r.resultCost, resultCount := r.resultCount }

/-- TS `NavMeshQuery.queryPolygons`. -/
def NavMeshQuery.queryPolygons (q : NavMeshQuery) (center halfExtents : Vec3)
    (options : PolysOptions) : QueryPolygonsResult :=
  let filter := options.filter.getD q.defaultFilter
  let maxPolys := options.maxPolys.getD 256
  let r := q.raw.queryPolygons center halfExtents filter.raw maxPolys
  { success := Detour.statusSucceed r.status, status := r.status,
    polyRefs := (List.range r.polyCount).map fun i => r.polys.getD i 0,
    polyCount := r.polyCount }

/-- TS `NavMeshQuery.closestPointOnPoly`. -/
def NavMeshQuery.closestPointOnPoly (q : NavMeshQuery) (polyRef : PolyRef)
    (position : Vec3) : ClosestPointOnPolyResult :=
  let r := q.raw.closestPointOnPoly polyRef position
  { success := Detour.statusSucceed r.status, status := r.status,
    closestPoint := r.closestPoint, posOverPoly := r.posOverPoly }

/-- TS `NavMeshQuery.getClosestPoint`: returns only a position. -/
def NavMeshQuery.getClosestPoint (q : NavMeshQuery) (position : Vec3)
    (options : GetPointOptions) : Vec3 :=
  q.raw.getClosestPoint position
    (options.halfExtents.getD q.defaultQueryHalfExtents)
    ((options.filter.map QueryFilter.raw).getD q.defaultFilter.raw)

/-- TS `NavMeshQuery.getRandomPointAround`: returns only a position. -/
def NavMeshQuery.getRandomPointAround (q : NavMeshQuery) (position : Vec3)
    (radius : ℚ) (options : GetPointOptions) : Vec3 :=
  q.raw.getRandomPointAround position radius
    (options.halfExtents.getD q.defaultQueryHalfExtents)
    ((options.filter.map QueryFilter.raw).getD q.defaultFilter.raw)

/-- TS `NavMeshQuery.moveAlongSurface`. -/
def NavMeshQuery.moveAlongSurface (q : NavMeshQuery) (startRef : PolyRef)
    (startPosition endPosition : Vec3) (options : MoveAlongSurfaceOptions) :
    MoveAlongSurfaceResult :=
  let maxVisitedSize := options.maxVisitedSize.getD 256
  let filter := (options.filter.map QueryFilter.raw).getD q.defaultFilter.raw
  let r := q.raw.moveAlongSurface startRef startPosition endPosition
    filter maxVisitedSize
  { success := Detour.statusSucceed r.status, status := r.status,
    resultPosition := r.resultPosition, visited := r.visited }

/-- TS `NavMeshQuery.findRandomPoint`. -/
def NavMeshQuery.findRandomPoint (q : NavMeshQuery)
    (options : FindRandomPointOptions) : FindRandomPointResult :=
  let r := q.raw.findRandomPoint
    ((options.filter.map QueryFilter.raw).getD q.defaultFilter.raw)
  { success := Detour.statusSucceed r.status, status := r.status,
    randomPolyRef := r.randomPolyRef, randomPoint := r.randomPoint }

/-- TS `NavMeshQuery.getPolyHeight`. -/
def NavMeshQuery.getPolyHeight (q : NavMeshQuery) (polyRef : PolyRef)
    (position : Vec3) : GetPolyHeightResult :=
  let r := q.raw.getPolyHeight polyRef position
  { success := Detour.statusSucceed r.status, status := r.status,
    height := r.height }

/-- TS `NavMeshQuery.findPath`. -/
def NavMeshQuery.findPath (q : NavMeshQuery) (startRef endRef : PolyRef)
    (startPosition endPosition : Vec3) (options : FindPathOptions) :
    FindPathResult :=
  let filter := options.filter.getD q.defaultFilter
  let maxPathPolys := options.maxPathPolys.getD 256
  let r := q.raw.findPath startRef endRef startPosition endPosition
    filter.raw maxPathPolys
  { success := Detour.statusSucceed r.status, status := r.status,
    polys := r.polys }

/-- TS `NavMeshQuery.findStraightPath`. -/
def NavMeshQuery.findStraightPath (q : NavMeshQuery) (start finish : Vec3)
    (path : List PolyRef) (options : FindStraightPathOptions) :
    FindStraightPathResult :=
  let maxStraightPathPoints := options.maxStraightPathPoints.getD 256
  let straightPathOptions := options.straightPathOptions.getD 0
  let r := q.raw.findStraightPath start finish path
    maxStraightPathPoints straightPathOptions
  { success := Detour.statusSucceed r.status, status := r.status,
    straightPath := r.straightPath,
    straightPathFlags := r.straightPathFlags,
    straightPathRefs := r.straightPathRefs,
    straightPathCount := r.straightPathCount }

/-- One native sub-operation call performed by `computePath`, with the
arguments relevant to the verified claims, in call order. -/
inductive TraceCall where
  | findNearestPoly (position : Vec3)
  | findPath (startRef endRef : PolyRef) (startPos endPos : Vec3)
      (maxPathPolys : ℕ)
  | closestPointOnPoly (ref : PolyRef) (position : Vec3)
  | findStraightPath (startPos endPos : Vec3) (path : List PolyRef)
      (maxStraightPathPoints : Option ℕ)
deriving DecidableEq, Repr

/-- Tail of `computePath` after the corridor and the clamped end are
known: the string-pull call and the output formatting loop of the TS
method (`findStraightPath` then the point-building `for` loop). -/
def NavMeshQuery.computePathFinish (q : NavMeshQuery)
    (start closestEnd : Vec3) (polys : List PolyRef)
    (maxStraightPathPoints : Option ℕ) (tr : List TraceCall) :
    ComputePathResult × List TraceCall :=
  let fsp := q.findStraightPath start closestEnd polys
    ⟨maxStraightPathPoints, none⟩
  let tr := tr ++
    [TraceCall.findStraightPath start closestEnd polys maxStraightPathPoints]
  if fsp.success then
    ({ success := true, error := none,
       path := (List.range fsp.straightPathCount).map fun i =>
         ⟨fsp.straightPath.getD (i * 3) 0,
          fsp.straightPath.getD (i * 3 + 1) 0,
          fsp.straightPath.getD (i * 3 + 2) 0⟩ }, tr)
  else
    ({ success := false,
       error := some ⟨"findStraightPath unsuccessful", some fsp.status⟩,
       path := [] }, tr)

/-- TS `NavMeshQuery.computePath`, instrumented with the list of native
sub-operation calls it performs: nearest polygons for the start and end
positions, the corridor search, the clamp of the end position onto the
last corridor polygon when that polygon is not the end polygon, the
string pull, and the point-formatting loop — each step returning an
empty path and the failing status as soon as a sub-operation fails. -/
def NavMeshQuery.computePath (q : NavMeshQuery) (start finish : Vec3)
    (options : ComputePathOptions) : ComputePathResult × List TraceCall :=
  let filter := options.filter.getD q.defaultFilter
  let snp := q.findNearestPoly start ⟨some filter, none⟩
  let tr1 := [TraceCall.findNearestPoly start]
  if snp.success then
    let enp := q.findNearestPoly finish ⟨some filter, none⟩
    let tr2 := tr1 ++ [TraceCall.findNearestPoly finish]
    if enp.success then
      let startRef := snp.nearestRef
      let endRef := enp.nearestRef
      let maxPathPolys := options.maxPathPolys.getD 256
      let fp := q.findPath startRef endRef start finish
        ⟨some filter, some maxPathPolys⟩
      let tr3 := tr2 ++
        [TraceCall.findPath startRef endRef start finish maxPathPolys]
      if fp.success then
        if fp.polys.length = 0 then
          ({ success := false, error := some ⟨"no polygon path found", none⟩,
             path := [] }, tr3)
        else
          let lastPoly := fp.polys.getD (fp.polys.length - 1) 0
          if lastPoly ≠ endRef then
            let cp := q.closestPointOnPoly lastPoly finish
            let tr4 := tr3 ++ [TraceCall.closestPointOnPoly lastPoly finish]
            if cp.success then
              q.computePathFinish start cp.closestPoint fp.polys
                options.maxStraightPathPoints tr4
            else
              ({ success := false,
                 error := some ⟨"no closest point on last polygon found",
                   some cp.status⟩, path := [] }, tr4)
          else
            q.computePathFinish start finish fp.polys
              options.maxStraightPathPoints tr3
      else
        ({ success := false,
           error := some ⟨"findPath unsuccessful", some fp.status⟩,
           path := [] }, tr3)
    else
      ({ success := false,
         error := some ⟨"findNearestPoly for end position failed",
           some enp.status⟩, path := [] }, tr2)
  else
    ({ success := false,
       error := some ⟨"findNearestPoly for start position failed",
         some snp.status⟩, path := [] }, tr1)

/-! ## The mutable engine state

Modelled from the spec: a query engine instance owns mutable scratch
state — the search node pool, reset (not reallocated) between calls —
and the random-number source consumed by the random-point operations.
Deterministic queries neither read the pool they find nor the RNG; the
random-point operations advance the RNG. -/

/-- Modelled from the spec: the per-instance mutable state of a query
engine — the RNG counter and the scratch node-pool residue left by the
last search. -/
structure EngineState where
  rng : ℕ
  scratch : List PolyRef
deriving DecidableEq, Repr

/-- Modelled from the spec: run one deterministic query against the
engine state: the result depends only on the mesh and the arguments;
the call resets the scratch pool, leaving its own residue, and does not
touch the RNG. -/
def runQuery {α : Type} (result : α) (residue : List PolyRef)
    (s : EngineState) : α × EngineState :=
  (result, ⟨s.rng, residue⟩)

namespace StatefulQuery

/-- Stateful `findNearestPoly` against a mesh. -/
def findNearestPoly (m : NavMesh) (position : Vec3)
    (options : FindNearestPolyOptions) (s : EngineState) :
    FindNearestPolyResult × EngineState :=
  runQuery (m.query.findNearestPoly position options)
    [(m.query.findNearestPoly position options).nearestRef] s

/-- Stateful `findPolysAroundCircle` against a mesh. -/
def findPolysAroundCircle (m : NavMesh) (startRef : PolyRef)
    (centerPos : Vec3) (radius : ℚ) (options : PolysOptions)
    (s : EngineState) : FindPolysAroundCircleResult × EngineState :=
  runQuery (m.query.findPolysAroundCircle startRef centerPos radius options)
    (m.query.findPolysAroundCircle startRef centerPos radius options).resultRefs s

/-- Stateful `queryPolygons` against a mesh. -/
def queryPolygons (m : NavMesh) (center halfExtents : Vec3)
    (options : PolysOptions) (s : EngineState) :
    QueryPolygonsResult × EngineState :=
  runQuery (m.query.queryPolygons center halfExtents options)
    (m.query.queryPolygons center halfExtents options).polyRefs s

/-- Stateful `closestPointOnPoly` against a mesh. -/
def closestPointOnPoly (m : NavMesh) (polyRef : PolyRef) (position : Vec3)
    (s : EngineState) : ClosestPointOnPolyResult × EngineState :=
  runQuery (m.query.closestPointOnPoly polyRef position) [polyRef] s

/-- Stateful `getClosestPoint` against a mesh. -/
def getClosestPoint (m : NavMesh) (position : Vec3)
    (options : GetPointOptions) (s : EngineState) : Vec3 × EngineState :=
  runQuery (m.query.getClosestPoint position options) [] s

/-- Stateful `moveAlongSurface` against a mesh. -/
def moveAlongSurface (m : NavMesh) (startRef : PolyRef)
    (startPosition endPosition : Vec3) (options : MoveAlongSurfaceOptions)
    (s : EngineState) : MoveAlongSurfaceResult × EngineState :=
  runQuery (m.query.moveAlongSurface startRef startPosition endPosition options)
    (m.query.moveAlongSurface startRef startPosition endPosition options).visited s

/-- Stateful `getPolyHeight` against a mesh. -/
def getPolyHeight (m : NavMesh) (polyRef : PolyRef) (position : Vec3)
    (s : EngineState) : GetPolyHeightResult × EngineState :=
  runQuery (m.query.getPolyHeight polyRef position) [polyRef] s

/-- Stateful `findPath` against a mesh. -/
def findPath (m : NavMesh) (startRef endRef : PolyRef)
    (startPosition endPosition : Vec3) (options : FindPathOptions)
    (s : EngineState) : FindPathResult × EngineState :=
  runQuery (m.query.findPath startRef endRef startPosition endPosition options)
    (m.query.findPath startRef endRef startPosition endPosition options).polys s

/-- Stateful `findStraightPath` against a mesh. -/
def findStraightPath (m : NavMesh) (start finish : Vec3)
    (path : List PolyRef) (options : FindStraightPathOptions)
    (s : EngineState) : FindStraightPathResult × EngineState :=
  runQuery (m.query.findStraightPath start finish path options)
    (m.query.findStraightPath start finish path options).straightPathRefs s

/-- Modelled from the spec: the stateful `findRandomPoint` — the one
operation family that reads the RNG; it draws a passable polygon at the
RNG position and advances the RNG, so repeating it may change the
result (the random-point operations are excluded from the idempotence
claim). -/
def findRandomPoint (m : NavMesh) (options : FindRandomPointOptions)
    (s : EngineState) : FindRandomPointResult × EngineState :=
  let f := (options.filter.map QueryFilter.raw).getD m.query.defaultFilter.raw
  let passable := m.polys.enum.filter fun ip => passesPoly f ip.2
  match passable.rotate s.rng with
  | [] => (⟨false, dtFailure, 0, ⟨0, 0, 0⟩⟩, ⟨s.rng + 1, s.scratch⟩)
  | c :: _ =>
    (⟨true, dtSuccess, c.1 + 1, toVec3 c.2.centroid⟩, ⟨s.rng + 1, s.scratch⟩)

end StatefulQuery

/-! ## Calls observed with the caller's filter

The wrapper passes a caller-supplied filter to the native engine by
reference.  Modelled from the spec: the native query functions receive
the filter read-only and never mutate it, and the wrapper methods only
read `filter.raw`; each definition below is the corresponding wrapper
call observed together with the state of the caller's filter object
after the call. -/

/-- `findNearestPoly` observed with the caller's filter. -/
def NavMeshQuery.findNearestPolyWithFilter (q : NavMeshQuery)
    (position : Vec3) (f : QueryFilter) (he : Option Vec3) :
    FindNearestPolyResult × QueryFilter :=
  (q.findNearestPoly position ⟨some f, he⟩, f)

/-- `findPolysAroundCircle` observed with the caller's filter. -/
def NavMeshQuery.findPolysAroundCircleWithFilter (q : NavMeshQuery)
    (startRef : PolyRef) (centerPos : Vec3) (radius : ℚ) (f : QueryFilter)
    (maxPolys : Option ℕ) : FindPolysAroundCircleResult × QueryFilter :=
  (q.findPolysAroundCircle startRef centerPos radius ⟨some f, maxPolys⟩, f)

/-- `queryPolygons` observed with the caller's filter. -/
def NavMeshQuery.queryPolygonsWithFilter (q : NavMeshQuery)
    (center halfExtents : Vec3) (f : QueryFilter) (maxPolys : Option ℕ) :
    QueryPolygonsResult × QueryFilter :=
  (q.queryPolygons center halfExtents ⟨some f, maxPolys⟩, f)

/-- `moveAlongSurface` observed with the caller's filter. -/
def NavMeshQuery.moveAlongSurfaceWithFilter (q : NavMeshQuery)
    (startRef : PolyRef) (startPosition endPosition : Vec3) (f : QueryFilter)
    (maxVisitedSize : Option ℕ) : MoveAlongSurfaceResult × QueryFilter :=
  (q.moveAlongSurface startRef startPosition endPosition
    ⟨some f, maxVisitedSize⟩, f)

/-- `findRandomPoint` observed with the caller's filter. -/
def NavMeshQuery.findRandomPointWithFilter (q : NavMeshQuery)
    (f : QueryFilter) : FindRandomPointResult × QueryFilter :=
  (q.findRandomPoint ⟨some f⟩, f)

/-- `getClosestPoint` observed with the caller's filter. -/
def NavMeshQuery.getClosestPointWithFilter (q : NavMeshQuery)
    (position : Vec3) (f : QueryFilter) (he : Option Vec3) :
    Vec3 × QueryFilter :=
  (q.getClosestPoint position ⟨some f, he⟩, f)

/-- `getRandomPointAround` observed with the caller's filter. -/
def NavMeshQuery.getRandomPointAroundWithFilter (q : NavMeshQuery)
    (position : Vec3) (radius : ℚ) (f : QueryFilter) (he : Option Vec3) :
    Vec3 × QueryFilter :=
  (q.getRandomPointAround position radius ⟨some f, he⟩, f)

/-- `findPath` observed with the caller's filter. -/
def NavMeshQuery.findPathWithFilter (q : NavMeshQuery)
    (startRef endRef : PolyRef) (startPosition endPosition : Vec3)
    (f : QueryFilter) (maxPathPolys : Option ℕ) :
    FindPathResult × QueryFilter :=
  (q.findPath startRef endRef startPosition endPosition
    ⟨some f, maxPathPolys⟩, f)

/-- `findStraightPath` takes no filter; `computePath` observed with the
caller's filter. -/
def NavMeshQuery.computePathWithFilter (q : NavMeshQuery)
    (start finish : Vec3) (f : QueryFilter)
    (maxPathPolys maxStraightPathPoints : Option ℕ) :
    (ComputePathResult × List TraceCall) × QueryFilter :=
  (q.computePath start finish ⟨some f, maxPathPolys, maxStraightPathPoints⟩, f)

/-! ## Area-cost write sequences -/

/-- Apply a sequence of `setAreaCost` writes to a filter, as a caller
would, keeping the filter state each write leaves behind. -/
def applyAreaCosts (q : QueryFilter) (sets : List (ℤ × ℚ)) : QueryFilter :=
  sets.foldl (fun acc s => (acc.setAreaCost s.1 s.2).2) q

/-! ## Concrete fixtures -/

/-- A mesh with no polygons. -/
def emptyMesh : NavMesh := ⟨[]⟩

/-- One walkable unit-2 square around the origin (counter-clockwise in
the xz-plane), flags 1, area 0, no neighbors. -/
def squareMesh : NavMesh :=
  ⟨[⟨[(-1, -1), (1, -1), (1, 1), (-1, 1)], 1, 0, []⟩]⟩

/-- Two adjacent walkable unit squares sharing the edge x = 1,
counter-clockwise, flags 1, mutual neighbors. -/
def twoSquareMesh : NavMesh :=
  ⟨[⟨[(0, 0), (1, 0), (1, 1), (0, 1)], 1, 0, [1]⟩,
    ⟨[(1, 0), (2, 0), (2, 1), (1, 1)], 1, 0, [0]⟩]⟩

/-- A native module whose nearest-polygon queries succeed with polygon 1
but whose corridor search fails: exercises the error propagation of
`computePath` at the corridor-search step. -/
def failFindPathModule : RawModule where
  findNearestPoly := fun _ _ _ => ⟨dtSuccess, 1, ⟨0, 0, 0⟩, true⟩
  findPolysAroundCircle := fun _ _ _ _ _ => ⟨dtSuccess, [], [], 0, 0⟩
  queryPolygons := fun _ _ _ _ => ⟨dtSuccess, [], 0⟩
  closestPointOnPoly := fun _ _ => ⟨dtSuccess, ⟨0, 0, 0⟩, true⟩
  getClosestPoint := fun _ _ _ => ⟨0, 0, 0⟩
  getRandomPointAround := fun _ _ _ _ => ⟨0, 0, 0⟩
  moveAlongSurface := fun _ _ _ _ _ => ⟨dtSuccess, ⟨0, 0, 0⟩, []⟩
  findRandomPoint := fun _ => ⟨dtSuccess, 1, ⟨0, 0, 0⟩⟩
  getPolyHeight := fun _ _ => ⟨dtSuccess, 0⟩
  findPath := fun _ _ _ _ _ _ => ⟨dtFailure, []⟩
  findStraightPath := fun _ _ _ _ _ => ⟨dtSuccess, [], [], [], 0⟩

/-- A corridor is good when it is non-empty and visits only valid,
passable polygons. -/
def GoodCorridor (m : NavMesh) (f : DtQueryFilter) (l : List PolyRef) : Prop :=
  l ≠ [] ∧ ∀ x ∈ l, m.passableRef f x = true

/-! ## Helper lemmas -/

lemma statusSucceed_ok : Detour.statusSucceed dtSuccess = true := by decide

lemma statusSucceed_ok_buffer :
    Detour.statusSucceed (dtSuccess + dtBufferTooSmall) = true := by decide

lemma statusSucceed_fail_invalid :
    Detour.statusSucceed statusFailInvalidParam = false := by decide

/-- Indexing the concatenation of a list and a singleton at the list's
length yields the singleton element. -/
lemma getD_concat_length {α : Type} (l : List α) (a d : α) :
    (l ++ [a]).getD l.length d = a := by
  induction l with
  | nil => rfl
  | cons x xs ih => exact ih

/-- Indexing a mapped list below its length applies the function to the
indexed element. -/
lemma getD_map_of_lt {α β : Type} [Inhabited α] (f : α → β) :
    ∀ (l : List α) (i : ℕ) (d : β), i < l.length →
      (l.map f).getD i d = f (l.getD i default)
  | [], i, d, h => by simp at h
  | x :: xs, 0, d, _ => rfl
  | x :: xs, i + 1, d, h =>
    getD_map_of_lt f xs i d (by simpa using h)

/-- The x coordinate of the i-th point of a flattened vertex buffer. -/
lemma flattenPts_getD_x :
    ∀ (l : List SPVert) (i : ℕ), i < l.length →
      (flattenPts l).getD (i * 3) 0 = (l.getD i default).pos.x
  | [], i, h => by simp at h
  | v :: vs, 0, _ => rfl
  | v :: vs, i + 1, h => by
    have e : (i + 1) * 3 = (i * 3) + 3 := by ring
    rw [e]
    simpa [flattenPts] using flattenPts_getD_x vs i (by simpa using h)

/-- The y coordinate of the i-th point of a flattened vertex buffer. -/
lemma flattenPts_getD_y :
    ∀ (l : List SPVert) (i : ℕ), i < l.length →
      (flattenPts l).getD (i * 3 + 1) 0 = (l.getD i default).pos.y
  | [], i, h => by simp at h
  | v :: vs, 0, _ => rfl
  | v :: vs, i + 1, h => by
    have e : (i + 1) * 3 + 1 = (i * 3 + 1) + 3 := by ring
    rw [e]
    simpa [flattenPts] using flattenPts_getD_y vs i (by simpa using h)

/-- The z coordinate of the i-th point of a flattened vertex buffer. -/
lemma flattenPts_getD_z :
    ∀ (l : List SPVert) (i : ℕ), i < l.length →
      (flattenPts l).getD (i * 3 + 2) 0 = (l.getD i default).pos.z
  | [], i, h => by simp at h
  | v :: vs, 0, _ => rfl
  | v :: vs, i + 1, h => by
    have e : (i + 1) * 3 + 2 = (i * 3 + 2) + 3 := by ring
    rw [e]
    simpa [flattenPts] using flattenPts_getD_z vs i (by simpa using h)

/-- Neighbors produced by the adjacency enumeration are passable. -/
lemma neighborsOf_passable {m : NavMesh} {f : DtQueryFilter} {r n : PolyRef}
    (h : n ∈ m.neighborsOf f r) : m.passableRef f n = true :=
  (List.mem_filter.mp h).2

/-- Every corridor carried by the search queue stays good: the corridor
returned for the goal and every popped entry are good whenever the
initial queue and accumulator entries are. -/
lemma bfsLoop_sound (m : NavMesh) (f : DtQueryFilter) (goal : PolyRef) :
    ∀ (fuel : ℕ) (queue : List (PolyRef × List PolyRef))
      (visited : List PolyRef) (acc : List (PolyRef × List PolyRef)),
      (∀ e ∈ queue, GoodCorridor m f e.2) →
      (∀ e ∈ acc, GoodCorridor m f e.2) →
      (∀ p, (bfsLoop m f goal fuel queue visited acc).1 = some p →
        GoodCorridor m f p) ∧
      (∀ e ∈ (bfsLoop m f goal fuel queue visited acc).2,
        GoodCorridor m f e.2) := by
  intro fuel
  induction fuel with
  | zero =>
    intro queue visited acc hq hacc
    exact ⟨fun p hp => by simp [bfsLoop] at hp, fun e he => hacc e (by simpa [bfsLoop] using he)⟩
  | succ n ih =>
    intro queue visited acc hq hacc
    cases queue with
    | nil =>
      exact ⟨fun p hp => by simp [bfsLoop] at hp, fun e he => hacc e (by simpa [bfsLoop] using he)⟩
    | cons head rest =>
      obtain ⟨r, path⟩ := head
      have hhead : GoodCorridor m f path := hq (r, path) (List.mem_cons_self _ _)
      have hrest : ∀ e ∈ rest, GoodCorridor m f e.2 :=
        fun e he => hq e (List.mem_cons_of_mem _ he)
      by_cases hv : r ∈ visited
      · have := ih rest visited acc hrest hacc
        simpa [bfsLoop, hv] using this
      · by_cases hg : r = goal
        · subst hg
          constructor
          · intro p hp
            simp [bfsLoop, hv] at hp
            exact hp ▸ hhead
          · intro e he
            exact hacc e (by simpa [bfsLoop, hv] using he)
        · have hq2 : ∀ e ∈ rest ++ (m.neighborsOf f r).map (fun k => (k, k :: path)),
              GoodCorridor m f e.2 := by
            intro e he
            rcases List.mem_append.mp he with h1 | h1
            · exact hrest e h1
            · obtain ⟨k, hk, rfl⟩ := List.mem_map.mp h1
              refine ⟨by simp, ?_⟩
              intro x hx
              rcases List.mem_cons.mp hx with rfl | hx2
              · exact neighborsOf_passable hk
              · exact hhead.2 x hx2
          have hacc2 : ∀ e ∈ acc ++ [(r, path)], GoodCorridor m f e.2 := by
            intro e he
            rcases List.mem_append.mp he with h1 | h1
            · exact hacc e h1
            · simp at h1
              exact h1 ▸ hhead
          have := ih _ (r :: visited) _ hq2 hacc2
          simpa [bfsLoop, hv, hg] using this

/-- The minimum-distance fold of the best-partial pick lands on a member
of the extended list. -/
lemma pickFold_mem (m : NavMesh) (goalC : Pt2) :
    ∀ (l : List (PolyRef × List PolyRef)) (a : PolyRef × List PolyRef),
      l.foldl
        (fun best cur =>
          if dist2 (m.polyOf cur.1).centroid goalC <
              dist2 (m.polyOf best.1).centroid goalC then cur else best)
        a ∈ a :: l := by
  intro l
  induction l with
  | nil =>
    intro a
    simp
  | cons b bs ih =>
    intro a
    simp only [List.foldl_cons]
    by_cases hc : dist2 (m.polyOf b.1).centroid goalC <
        dist2 (m.polyOf a.1).centroid goalC
    · simp only [if_pos hc]
      exact List.mem_cons_of_mem _ (ih b)
    · simp only [if_neg hc]
      rcases List.mem_cons.mp (ih a) with h1 | h1
      · rw [h1]
        exact List.mem_cons_self _ _
      · exact List.mem_cons_of_mem _ (List.mem_cons_of_mem _ h1)

/-- The best-partial pick is one of the popped entries. -/
lemma pickBest_mem (m : NavMesh) (goalC : Pt2)
    (l : List (PolyRef × List PolyRef)) (e : PolyRef × List PolyRef)
    (h : pickBest m goalC l = some e) : e ∈ l := by
  cases l with
  | nil => simp [pickBest] at h
  | cons a rest =>
    simp only [pickBest, Option.some.injEq] at h
    exact h ▸ pickFold_mem m goalC rest a

/-- Truncating a good corridor with a positive bound keeps it good. -/
lemma truncCorridor_good {m : NavMesh} {f : DtQueryFilter} (k : ℕ)
    (l : List PolyRef) (hk : 1 ≤ k) (h : GoodCorridor m f l) :
    GoodCorridor m f (truncCorridor k l).2 := by
  have hlen : 0 < l.length := List.length_pos.mpr h.1
  unfold truncCorridor
  split
  · exact h
  · next hgt =>
    constructor
    · apply List.ne_nil_of_length_pos
      rw [List.length_drop]
      omega
    · intro x hx
      exact h.2 x (List.mem_of_mem_drop hx)

/-- A reversed good corridor is good. -/
lemma GoodCorridor.reverse {m : NavMesh} {f : DtQueryFilter}
    {l : List PolyRef} (h : GoodCorridor m f l) :
    GoodCorridor m f l.reverse :=
  ⟨by simpa using h.1, fun x hx => h.2 x (List.mem_reverse.mp hx)⟩

/-- Soundness of the spec-modelled corridor search: a corridor returned
with a successful status is non-empty and visits only valid, passable
polygons. -/
lemma findPath_success_sound (m : NavMesh) (f : DtQueryFilter)
    (sr er : PolyRef) (sp ep : Vec3) (mpp : ℕ)
    (h : Detour.statusSucceed
      (SpecEngine.findPath m sr er sp ep f mpp).status = true) :
    GoodCorridor m f (SpecEngine.findPath m sr er sp ep f mpp).polys := by
  unfold SpecEngine.findPath at h ⊢
  by_cases h0 : mpp = 0
  · rw [if_pos h0] at h
    exact absurd h (by decide)
  rw [if_neg h0] at h ⊢
  by_cases h1 : m.passableRef f sr = true
  case neg =>
    rw [if_pos h1] at h
    exact absurd h (by decide)
  rw [if_neg (not_not_intro h1)] at h ⊢
  by_cases h2 : m.passableRef f er = true
  case neg =>
    rw [if_pos h2] at h
    exact absurd h (by decide)
  rw [if_neg (not_not_intro h2)] at h ⊢
  by_cases h3 : sr = er
  · rw [if_pos h3] at h ⊢
    refine ⟨by simp, ?_⟩
    intro x hx
    rcases List.mem_singleton.mp hx with rfl
    exact h1
  rw [if_neg h3] at h ⊢
  have hstart : GoodCorridor m f [sr] := by
    refine ⟨by simp, ?_⟩
    intro x hx
    rcases List.mem_singleton.mp hx with rfl
    exact h1
  have hbfs := bfsLoop_sound m f er (searchFuel m) [(sr, [sr])] [] []
    (by
      intro e he
      simp at he
      rw [he]
      exact hstart)
    (by
      intro e he
      simp at he)
  rcases hres : (bfsLoop m f er (searchFuel m) [(sr, [sr])] [] []).1
    with _ | revPath
  · simp only [hres] at h ⊢
    rcases hpick : pickBest m (m.polyOf er).centroid
        (bfsLoop m f er (searchFuel m) [(sr, [sr])] [] []).2 with _ | e
    · simp only [hpick] at h
      exact absurd h (by decide)
    · simp only [hpick] at h ⊢
      exact truncCorridor_good mpp _ (by omega)
        ((hbfs.2 e (pickBest_mem _ _ _ _ hpick)).reverse)
  · simp only [hres] at h ⊢
    exact truncCorridor_good mpp _ (by omega)
      ((hbfs.1 revPath hres).reverse)

/-- Writing one area cost leaves every other area id unchanged. -/
lemma setAreaCost_preserves_other (q : QueryFilter) (i j : ℤ) (c : ℚ)
    (hne : i ≠ j) :
    ((q.setAreaCost i c).2).getAreaCost j = q.getAreaCost j := by
  simp only [QueryFilter.setAreaCost, QueryFilter.getAreaCost,
    DtQueryFilter.setAreaCost, DtQueryFilter.getAreaCost]
  by_cases hi : 0 ≤ i ∧ i < 64
  · rw [dif_pos hi]
    by_cases hj : 0 ≤ j ∧ j < 64
    · rw [dif_pos hj, dif_pos hj]
      simp only []
      rw [if_neg]
      intro hEq
      apply hne
      have h2 : j.toNat = i.toNat := congrArg Fin.val hEq
      omega
    · rw [dif_neg hj, dif_neg hj]
  · rw [dif_neg hi]

/-- A sequence of area-cost writes leaves every untouched area id
unchanged. -/
lemma applyAreaCosts_untouched (j : ℤ) :
    ∀ (sets : List (ℤ × ℚ)) (q : QueryFilter),
      (∀ s ∈ sets, s.1 ≠ j) →
      (applyAreaCosts q sets).getAreaCost j = q.getAreaCost j := by
  intro sets
  induction sets with
  | nil =>
    intro q _
    rfl
  | cons s ss ih =>
    intro q hs
    have h1 : s.1 ≠ j := hs s (List.mem_cons_self _ _)
    calc (applyAreaCosts q (s :: ss)).getAreaCost j
        = (applyAreaCosts (q.setAreaCost s.1 s.2).2 ss).getAreaCost j := rfl
      _ = ((q.setAreaCost s.1 s.2).2).getAreaCost j :=
          ih _ (fun t ht => hs t (List.mem_cons_of_mem _ ht))
      _ = q.getAreaCost j := setAreaCost_preserves_other q s.1 j s.2 h1

/-- The wrapper `findPath` against a mesh, expressed through the
spec-modelled native engine. -/
lemma wrapper_findPath_native (m : NavMesh) (sr er : PolyRef) (sp ep : Vec3)
    (opts : FindPathOptions) :
    (m.query).findPath sr er sp ep opts =
      { success := Detour.statusSucceed (SpecEngine.findPath m sr er sp ep
          (opts.filter.getD (m.query).defaultFilter).raw
          (opts.maxPathPolys.getD 256)).status,
        status := (SpecEngine.findPath m sr er sp ep
          (opts.filter.getD (m.query).defaultFilter).raw
          (opts.maxPathPolys.getD 256)).status,
        polys := (SpecEngine.findPath m sr er sp ep
          (opts.filter.getD (m.query).defaultFilter).raw
          (opts.maxPathPolys.getD 256)).polys } := rfl

/-- The wrapper `findStraightPath` against a mesh, expressed through the
spec-modelled native engine. -/
lemma wrapper_findStraightPath_native (m : NavMesh) (s e : Vec3)
    (path : List PolyRef) (opts : FindStraightPathOptions) :
    (m.query).findStraightPath s e path opts =
      { success := Detour.statusSucceed (SpecEngine.findStraightPath m s e
          path (opts.maxStraightPathPoints.getD 256)
          (opts.straightPathOptions.getD 0)).status,
        status := (SpecEngine.findStraightPath m s e path
          (opts.maxStraightPathPoints.getD 256)
          (opts.straightPathOptions.getD 0)).status,
        straightPath := (SpecEngine.findStraightPath m s e path
          (opts.maxStraightPathPoints.getD 256)
          (opts.straightPathOptions.getD 0)).straightPath,
        straightPathFlags := (SpecEngine.findStraightPath m s e path
          (opts.maxStraightPathPoints.getD 256)
          (opts.straightPathOptions.getD 0)).straightPathFlags,
        straightPathRefs := (SpecEngine.findStraightPath m s e path
          (opts.maxStraightPathPoints.getD 256)
          (opts.straightPathOptions.getD 0)).straightPathRefs,
        straightPathCount := (SpecEngine.findStraightPath m s e path
          (opts.maxStraightPathPoints.getD 256)
          (opts.straightPathOptions.getD 0)).straightPathCount } := rfl

/-! ## Claim theorems -/

/-- C3 (amended): every outcome-reporting operation of the query engine —
findNearestPoly, findPolysAroundCircle, queryPolygons, closestPointOnPoly,
moveAlongSurface, findRandomPoint, getPolyHeight, findPath and
findStraightPath — returns, for every native module and every input, an
explicit success flag distinct from its payload and equal to
statusSucceed of the returned status word (and, being total functions,
they never throw).  getClosestPoint and getRandomPointAround are not in
this list: they return a bare position (see the counterexample). -/
theorem ops_return_explicit_status (q : NavMeshQuery) :
    (∀ pos opts, (q.findNearestPoly pos opts).success =
      Detour.statusSucceed (q.findNearestPoly pos opts).status) ∧
    (∀ sr c rad opts, (q.findPolysAroundCircle sr c rad opts).success =
      Detour.statusSucceed (q.findPolysAroundCircle sr c rad opts).status) ∧
    (∀ c he opts, (q.queryPolygons c he opts).success =
      Detour.statusSucceed (q.queryPolygons c he opts).status) ∧
    (∀ r pos, (q.closestPointOnPoly r pos).success =
      Detour.statusSucceed (q.closestPointOnPoly r pos).status) ∧
    (∀ sr sp ep opts, (q.moveAlongSurface sr sp ep opts).success =
      Detour.statusSucceed (q.moveAlongSurface sr sp ep opts).status) ∧
    (∀ opts, (q.findRandomPoint opts).success =
      Detour.statusSucceed (q.findRandomPoint opts).status) ∧
    (∀ r pos, (q.getPolyHeight r pos).success =
      Detour.statusSucceed (q.getPolyHeight r pos).status) ∧
    (∀ sr er sp ep opts, (q.findPath sr er sp ep opts).success =
      Detour.statusSucceed (q.findPath sr er sp ep opts).status) ∧
    (∀ s e path opts, (q.findStraightPath s e path opts).success =
      Detour.statusSucceed (q.findStraightPath s e path opts).status) := by
  refine ⟨?_, ?_, ?_, ?_, ?_, ?_, ?_, ?_, ?_⟩ <;> intros <;> rfl

/-- C3 is false as stated: getClosestPoint returns no success/failure
status distinct from its payload — over a one-square mesh the
nearest-polygon lookup at the origin succeeds, over the empty mesh it
fails, yet getClosestPoint returns the identical bare position in both
cases, so its result does not expose the failure. -/
theorem getClosestPoint_conflates_failure_cex :
    ((squareMesh.query).findNearestPoly ⟨0, 0, 0⟩ ⟨none, none⟩).success = true ∧
    ((emptyMesh.query).findNearestPoly ⟨0, 0, 0⟩ ⟨none, none⟩).success = false ∧
    (squareMesh.query).getClosestPoint ⟨0, 0, 0⟩ ⟨none, none⟩ =
      (emptyMesh.query).getClosestPoint ⟨0, 0, 0⟩ ⟨none, none⟩ := by
  refine ⟨by decide, by decide, by decide⟩

/-- C4: for every valid polygon reference A passing the effective filter,
every position p within A and a positive corridor bound, findPath from A
to itself succeeds with the single-element corridor [A]. -/
theorem findPath_same_start_end (m : NavMesh) (A : PolyRef) (p : Vec3)
    (opts : FindPathOptions)
    (hval : m.validRef A = true)
    (hpass : passesPoly (opts.filter.getD (m.query).defaultFilter).raw
      (m.polyOf A) = true)
    (_hin : insideConvex (m.polyOf A).verts (toPt2 p) = true)
    (hmax : 1 ≤ opts.maxPathPolys.getD 256) :
    ((m.query).findPath A A p p opts).success = true ∧
    ((m.query).findPath A A p p opts).polys = [A] := by
  have h0 : ¬ (opts.maxPathPolys.getD 256 = 0) := by omega
  have hp : m.passableRef
      (opts.filter.getD (m.query).defaultFilter).raw A = true := by
    simp [NavMesh.passableRef, hval, hpass]
  simp only [NavMesh.query, NavMeshQuery.create] at hp
  simp only [NavMeshQuery.findPath, NavMesh.query, NavMeshQuery.create,
    NavMesh.rawModule, SpecEngine.findPath]
  rw [if_neg h0, if_neg (not_not_intro hp), if_neg (not_not_intro hp),
    if_pos (by trivial)]
  exact ⟨statusSucceed_ok, rfl⟩

/-- Witness for C4 on the one-square mesh at its center. -/
theorem findPath_same_start_end_witness :
    ((squareMesh.query).findPath 1 1 ⟨0, 0, 0⟩ ⟨0, 0, 0⟩ ⟨none, none⟩).success
      = true ∧
    ((squareMesh.query).findPath 1 1 ⟨0, 0, 0⟩ ⟨0, 0, 0⟩ ⟨none, none⟩).polys
      = [1] :=
  findPath_same_start_end squareMesh 1 ⟨0, 0, 0⟩ ⟨none, none⟩
    (by decide) (by decide) (by decide) (by decide)

/-- C5: box queries and circle queries are caller-bounded — the returned
count never exceeds the caller bound and the returned reference and
parent arrays have length exactly equal to the count, for every mesh and
every input (in particular when more polygons match than the bound). -/
theorem region_queries_respect_caller_bound (m : NavMesh)
    (center he cpos : Vec3) (sr : PolyRef) (radius : ℚ)
    (optsB optsC : PolysOptions) :
    ((m.query).queryPolygons center he optsB).polyCount ≤
      optsB.maxPolys.getD 256 ∧
    ((m.query).queryPolygons center he optsB).polyRefs.length =
      ((m.query).queryPolygons center he optsB).polyCount ∧
    ((m.query).findPolysAroundCircle sr cpos radius optsC).resultCount ≤
      optsC.maxPolys.getD 256 ∧
    ((m.query).findPolysAroundCircle sr cpos radius optsC).resultRefs.length =
      ((m.query).findPolysAroundCircle sr cpos radius optsC).resultCount ∧
    ((m.query).findPolysAroundCircle sr cpos radius optsC).resultParents.length =
      ((m.query).findPolysAroundCircle sr cpos radius optsC).resultCount := by
  refine ⟨?_, ?_, ?_, ?_, ?_⟩
  · simp only [NavMeshQuery.queryPolygons, NavMesh.query, NavMeshQuery.create,
      NavMesh.rawModule, SpecEngine.queryPolygons]
    rw [List.length_take]
    exact min_le_left _ _
  · simp [NavMeshQuery.queryPolygons]
  · simp only [NavMeshQuery.findPolysAroundCircle, NavMesh.query,
      NavMeshQuery.create, NavMesh.rawModule, SpecEngine.findPolysAroundCircle]
    split
    · simp only []
      rw [List.length_take]
      exact min_le_left _ _
    · simp
  · simp [NavMeshQuery.findPolysAroundCircle]
  · simp [NavMeshQuery.findPolysAroundCircle]

/-- C6: the engine constructor builds a default filter with include
flags 0xffff and exclude flags 0; every 16-bit polygon flags value other
than zero passes that default; and every filter-taking operation invoked
without an explicit filter behaves exactly as if the default filter had
been supplied. -/
theorem default_filter_include_all (raw : RawModule) :
    (NavMeshQuery.create raw).defaultFilter.raw.includeFlags = 0xffff ∧
    (NavMeshQuery.create raw).defaultFilter.raw.excludeFlags = 0 ∧
    (∀ flags : ℕ, flags < 2 ^ 16 → flags ≠ 0 →
      passesFlags (NavMeshQuery.create raw).defaultFilter.raw flags = true) ∧
    (∀ pos he, (NavMeshQuery.create raw).findNearestPoly pos ⟨none, he⟩ =
      (NavMeshQuery.create raw).findNearestPoly pos
        ⟨some (NavMeshQuery.create raw).defaultFilter, he⟩) ∧
    (∀ sr c rad mp,
      (NavMeshQuery.create raw).findPolysAroundCircle sr c rad ⟨none, mp⟩ =
      (NavMeshQuery.create raw).findPolysAroundCircle sr c rad
        ⟨some (NavMeshQuery.create raw).defaultFilter, mp⟩) ∧
    (∀ c he mp, (NavMeshQuery.create raw).queryPolygons c he ⟨none, mp⟩ =
      (NavMeshQuery.create raw).queryPolygons c he
        ⟨some (NavMeshQuery.create raw).defaultFilter, mp⟩) ∧
    (∀ sr sp ep mv,
      (NavMeshQuery.create raw).moveAlongSurface sr sp ep ⟨none, mv⟩ =
      (NavMeshQuery.create raw).moveAlongSurface sr sp ep
        ⟨some (NavMeshQuery.create raw).defaultFilter, mv⟩) ∧
    ((NavMeshQuery.create raw).findRandomPoint ⟨none⟩ =
      (NavMeshQuery.create raw).findRandomPoint
        ⟨some (NavMeshQuery.create raw).defaultFilter⟩) ∧
    (∀ pos he, (NavMeshQuery.create raw).getClosestPoint pos ⟨none, he⟩ =
      (NavMeshQuery.create raw).getClosestPoint pos
        ⟨some (NavMeshQuery.create raw).defaultFilter, he⟩) ∧
    (∀ pos rad he,
      (NavMeshQuery.create raw).getRandomPointAround pos rad ⟨none, he⟩ =
      (NavMeshQuery.create raw).getRandomPointAround pos rad
        ⟨some (NavMeshQuery.create raw).defaultFilter, he⟩) ∧
    (∀ sr er sp ep mp,
      (NavMeshQuery.create raw).findPath sr er sp ep ⟨none, mp⟩ =
      (NavMeshQuery.create raw).findPath sr er sp ep
        ⟨some (NavMeshQuery.create raw).defaultFilter, mp⟩) ∧
    (∀ s e mp msp,
      (NavMeshQuery.create raw).computePath s e ⟨none, mp, msp⟩ =
      (NavMeshQuery.create raw).computePath s e
        ⟨some (NavMeshQuery.create raw).defaultFilter, mp, msp⟩) := by
  refine ⟨rfl, rfl, ?_, fun _ _ => rfl, fun _ _ _ _ => rfl, fun _ _ _ => rfl,
    fun _ _ _ _ => rfl, rfl, fun _ _ => rfl, fun _ _ _ => rfl,
    fun _ _ _ _ _ => rfl, fun _ _ _ _ => rfl⟩
  intro flags hlt hne
  have h1 : flags &&& 0xffff = flags := by
    have e : (0xffff : ℕ) = 2 ^ 16 - 1 := by norm_num
    rw [e, Nat.and_pow_two_sub_one_of_lt_two_pow hlt]
  simp [passesFlags, NavMeshQuery.create, QueryFilter.new,
    QueryFilter.setIncludeFlags, QueryFilter.setExcludeFlags,
    DtQueryFilter.new, h1, Nat.and_zero, hne]

/-- Witness for C6 on flags value 7. -/
theorem default_filter_include_all_witness :
    passesFlags (NavMeshQuery.create failFindPathModule).defaultFilter.raw 7
      = true :=
  (default_filter_include_all failFindPathModule).2.2.1 7 (by norm_num)
    (by norm_num)

/-- C7: every query operation leaves the caller-supplied filter exactly
as it received it — the wrapper only reads the filter, and the native
engine receives it read-only — so its include flags, exclude flags and
area-cost table are unchanged by findNearestPoly, findPolysAroundCircle,
queryPolygons, moveAlongSurface, findRandomPoint, getClosestPoint,
getRandomPointAround, findPath and computePath (findStraightPath takes
no filter). -/
theorem queries_preserve_caller_filter (q : NavMeshQuery) :
    (∀ pos f he, (q.findNearestPolyWithFilter pos f he).2 = f) ∧
    (∀ sr c rad f mp, (q.findPolysAroundCircleWithFilter sr c rad f mp).2 = f) ∧
    (∀ c he f mp, (q.queryPolygonsWithFilter c he f mp).2 = f) ∧
    (∀ sr sp ep f mv, (q.moveAlongSurfaceWithFilter sr sp ep f mv).2 = f) ∧
    (∀ f, (q.findRandomPointWithFilter f).2 = f) ∧
    (∀ pos f he, (q.getClosestPointWithFilter pos f he).2 = f) ∧
    (∀ pos rad f he, (q.getRandomPointAroundWithFilter pos rad f he).2 = f) ∧
    (∀ sr er sp ep f mp, (q.findPathWithFilter sr er sp ep f mp).2 = f) ∧
    (∀ s e f mp msp, (q.computePathWithFilter s e f mp msp).2 = f) := by
  refine ⟨?_, ?_, ?_, ?_, ?_, ?_, ?_, ?_, ?_⟩ <;> intros <;> rfl

/-- C8: setAreaCost validates the area id — an id outside 0–63 yields
the invalid-area error and leaves the filter unchanged — and the
per-area cost of a fresh filter, and of any filter whose write sequence
never touched an in-range area id, is 1. -/
theorem setAreaCost_validates_area_id (qf : QueryFilter) (i : ℤ) (cost : ℚ)
    (sets : List (ℤ × ℚ)) (j : ℤ)
    (hout : i < 0 ∨ 64 ≤ i) (hj : 0 ≤ j ∧ j < 64)
    (hunset : ∀ s ∈ sets, s.1 ≠ j) :
    (qf.setAreaCost i cost).1 = statusFailInvalidArea ∧
    (qf.setAreaCost i cost).2 = qf ∧
    QueryFilter.new.getAreaCost j = 1 ∧
    (applyAreaCosts QueryFilter.new sets).getAreaCost j = 1 := by
  have hi : ¬ (0 ≤ i ∧ i < 64) := by omega
  have h3 : QueryFilter.new.getAreaCost j = 1 := by
    simp only [QueryFilter.getAreaCost, DtQueryFilter.getAreaCost,
      QueryFilter.new, DtQueryFilter.new]
    rw [dif_pos hj]
  refine ⟨?_, ?_, h3, ?_⟩
  · simp only [QueryFilter.setAreaCost, DtQueryFilter.setAreaCost]
    rw [dif_neg hi]
  · simp only [QueryFilter.setAreaCost, DtQueryFilter.setAreaCost]
    rw [dif_neg hi]
  · rw [applyAreaCosts_untouched j sets _ hunset]
    exact h3

/-- Witness for C8: id 64 is rejected, and area 3 still costs 1 after an
unrelated write to area 2. -/
theorem setAreaCost_validates_area_id_witness :
    (QueryFilter.new.setAreaCost 64 5).1 = statusFailInvalidArea ∧
    (QueryFilter.new.setAreaCost 64 5).2 = QueryFilter.new ∧
    QueryFilter.new.getAreaCost 3 = 1 ∧
    (applyAreaCosts QueryFilter.new [(2, 7)]).getAreaCost 3 = 1 :=
  setAreaCost_validates_area_id QueryFilter.new 64 5 [(2, 7)] 3
    (Or.inr (by norm_num)) (by norm_num) (by decide)

/-- C2: computePath propagates the first failing sub-operation — it
returns success false, an error record carrying that sub-operation's
status, and the empty path, and the instrumented call trace stops at the
failing call, for every native module: failure of findNearestPoly on the
start, of findNearestPoly on the end, of findPath, of closestPointOnPoly
on the last corridor polygon (only consulted when that polygon differs
from the end polygon), and of findStraightPath with either end point. -/
theorem computePath_short_circuits (q : NavMeshQuery) (start finish : Vec3)
    (opts : ComputePathOptions) (filter : QueryFilter)
    (snp enp : FindNearestPolyResult) (fp : FindPathResult)
    (cp : ClosestPointOnPolyResult) (fsp1 fsp2 : FindStraightPathResult)
    (hfilter : opts.filter.getD q.defaultFilter = filter)
    (hsnp : q.findNearestPoly start ⟨some filter, none⟩ = snp)
    (henp : q.findNearestPoly finish ⟨some filter, none⟩ = enp)
    (hfp : q.findPath snp.nearestRef enp.nearestRef start finish
      ⟨some filter, some (opts.maxPathPolys.getD 256)⟩ = fp)
    (hcp : q.closestPointOnPoly (fp.polys.getD (fp.polys.length - 1) 0) finish
      = cp)
    (hfsp1 : q.findStraightPath start cp.closestPoint fp.polys
      ⟨opts.maxStraightPathPoints, none⟩ = fsp1)
    (hfsp2 : q.findStraightPath start finish fp.polys
      ⟨opts.maxStraightPathPoints, none⟩ = fsp2) :
    (snp.success = false → q.computePath start finish opts =
      ({ success := false,
         error := some ⟨"findNearestPoly for start position failed",
           some snp.status⟩, path := [] },
       [TraceCall.findNearestPoly start])) ∧
    (snp.success = true → enp.success = false →
      q.computePath start finish opts =
      ({ success := false,
         error := some ⟨"findNearestPoly for end position failed",
           some enp.status⟩, path := [] },
       [TraceCall.findNearestPoly start, TraceCall.findNearestPoly finish])) ∧
    (snp.success = true → enp.success = true → fp.success = false →
      q.computePath start finish opts =
      ({ success := false,
         error := some ⟨"findPath unsuccessful", some fp.status⟩, path := [] },
       [TraceCall.findNearestPoly start, TraceCall.findNearestPoly finish,
        TraceCall.findPath snp.nearestRef enp.nearestRef start finish
          (opts.maxPathPolys.getD 256)])) ∧
    (snp.success = true → enp.success = true → fp.success = true →
      fp.polys.length ≠ 0 →
      fp.polys.getD (fp.polys.length - 1) 0 ≠ enp.nearestRef →
      cp.success = false →
      q.computePath start finish opts =
      ({ success := false,
         error := some ⟨"no closest point on last polygon found",
           some cp.status⟩, path := [] },
       [TraceCall.findNearestPoly start, TraceCall.findNearestPoly finish,
        TraceCall.findPath snp.nearestRef enp.nearestRef start finish
          (opts.maxPathPolys.getD 256),
        TraceCall.closestPointOnPoly (fp.polys.getD (fp.polys.length - 1) 0)
          finish])) ∧
    (snp.success = true → enp.success = true → fp.success = true →
      fp.polys.length ≠ 0 →
      fp.polys.getD (fp.polys.length - 1) 0 ≠ enp.nearestRef →
      cp.success = true → fsp1.success = false →
      q.computePath start finish opts =
      ({ success := false,
         error := some ⟨"findStraightPath unsuccessful", some fsp1.status⟩,
         path := [] },
       [TraceCall.findNearestPoly start, TraceCall.findNearestPoly finish,
        TraceCall.findPath snp.nearestRef enp.nearestRef start finish
          (opts.maxPathPolys.getD 256),
        TraceCall.closestPointOnPoly (fp.polys.getD (fp.polys.length - 1) 0)
          finish,
        TraceCall.findStraightPath start cp.closestPoint fp.polys
          opts.maxStraightPathPoints])) ∧
    (snp.success = true → enp.success = true → fp.success = true →
      fp.polys.length ≠ 0 →
      fp.polys.getD (fp.polys.length - 1) 0 = enp.nearestRef →
      fsp2.success = false →
      q.computePath start finish opts =
      ({ success := false,
         error := some ⟨"findStraightPath unsuccessful", some fsp2.status⟩,
         path := [] },
       [TraceCall.findNearestPoly start, TraceCall.findNearestPoly finish,
        TraceCall.findPath snp.nearestRef enp.nearestRef start finish
          (opts.maxPathPolys.getD 256),
        TraceCall.findStraightPath start finish fp.polys
          opts.maxStraightPathPoints])) := by
  subst hfilter hsnp henp hfp hcp hfsp1 hfsp2
  refine ⟨?_, ?_, ?_, ?_, ?_, ?_⟩
  · intro h1
    simp [NavMeshQuery.computePath, h1]
  · intro h1 h2
    simp [NavMeshQuery.computePath, h1, h2]
  · intro h1 h2 h3
    simp [NavMeshQuery.computePath, h1, h2, h3]
  · intro h1 h2 h3 h4 h5 h6
    simp only [List.getD_eq_getElem?_getD] at h5 h6 ⊢
    simp [NavMeshQuery.computePath, h1, h2, h3, h4, h5, h6]
  · intro h1 h2 h3 h4 h5 h6 h7
    simp only [List.getD_eq_getElem?_getD] at h5 h6 h7 ⊢
    simp [NavMeshQuery.computePath, NavMeshQuery.computePathFinish,
      h1, h2, h3, h4, h5, h6, h7]
  · intro h1 h2 h3 h4 h5 h6
    simp only [List.getD_eq_getElem?_getD] at h5 h6 ⊢
    simp [NavMeshQuery.computePath, NavMeshQuery.computePathFinish,
      h1, h2, h3, h4, h5, h6]

/-- Witness for C2: a module whose corridor search fails makes
computePath stop after the three calls with the findPath error. -/
theorem computePath_short_circuits_witness :
    (NavMeshQuery.create failFindPathModule).computePath ⟨0, 0, 0⟩ ⟨0, 0, 0⟩
        ⟨none, none, none⟩ =
      ({ success := false,
         error := some ⟨"findPath unsuccessful", some dtFailure⟩, path := [] },
       [TraceCall.findNearestPoly ⟨0, 0, 0⟩, TraceCall.findNearestPoly ⟨0, 0, 0⟩,
        TraceCall.findPath 1 1 ⟨0, 0, 0⟩ ⟨0, 0, 0⟩ 256]) :=
  (computePath_short_circuits (NavMeshQuery.create failFindPathModule)
    ⟨0, 0, 0⟩ ⟨0, 0, 0⟩ ⟨none, none, none⟩ _ _ _ _ _ _ _
    rfl rfl rfl rfl rfl rfl rfl).2.2.1 (by decide) (by decide) (by decide)

/-- C10: whenever computePath succeeds, its path is built from the flat
float buffer of the underlying findStraightPath call — exactly
straightPathCount points, the i-th read off indices 3i, 3i+1, 3i+2 —
and the end position handed to string-pulling is the requested end when
the last corridor polygon is the end polygon, and otherwise the closest
point on that last polygon to the requested end (visible in the final
trace entry). -/
theorem computePath_success_format (q : NavMeshQuery) (start finish : Vec3)
    (opts : ComputePathOptions) (filter : QueryFilter)
    (snp enp : FindNearestPolyResult) (fp : FindPathResult)
    (closestEnd : Vec3) (fsp : FindStraightPathResult)
    (hfilter : opts.filter.getD q.defaultFilter = filter)
    (hsnp : q.findNearestPoly start ⟨some filter, none⟩ = snp)
    (henp : q.findNearestPoly finish ⟨some filter, none⟩ = enp)
    (hfp : q.findPath snp.nearestRef enp.nearestRef start finish
      ⟨some filter, some (opts.maxPathPolys.getD 256)⟩ = fp)
    (hce : (if fp.polys.getD (fp.polys.length - 1) 0 ≠ enp.nearestRef then
        (q.closestPointOnPoly (fp.polys.getD (fp.polys.length - 1) 0)
          finish).closestPoint
      else finish) = closestEnd)
    (hfsp : q.findStraightPath start closestEnd fp.polys
      ⟨opts.maxStraightPathPoints, none⟩ = fsp)
    (h : (q.computePath start finish opts).1.success = true) :
    (q.computePath start finish opts).1.path =
      (List.range fsp.straightPathCount).map (fun i =>
        (⟨fsp.straightPath.getD (i * 3) 0,
          fsp.straightPath.getD (i * 3 + 1) 0,
          fsp.straightPath.getD (i * 3 + 2) 0⟩ : Vec3)) ∧
    (q.computePath start finish opts).1.path.length = fsp.straightPathCount ∧
    (q.computePath start finish opts).2.getLast? =
      some (TraceCall.findStraightPath start closestEnd fp.polys
        opts.maxStraightPathPoints) := by
  subst hfilter hsnp henp hfp hce hfsp
  by_cases h1 : (q.findNearestPoly start
      ⟨some (opts.filter.getD q.defaultFilter), none⟩).success = true
  case neg =>
    simp [NavMeshQuery.computePath, h1] at h
  by_cases h2 : (q.findNearestPoly finish
      ⟨some (opts.filter.getD q.defaultFilter), none⟩).success = true
  case neg =>
    simp [NavMeshQuery.computePath, h1, h2] at h
  by_cases h3 : (q.findPath
      (q.findNearestPoly start
        ⟨some (opts.filter.getD q.defaultFilter), none⟩).nearestRef
      (q.findNearestPoly finish
        ⟨some (opts.filter.getD q.defaultFilter), none⟩).nearestRef
      start finish ⟨some (opts.filter.getD q.defaultFilter),
        some (opts.maxPathPolys.getD 256)⟩).success = true
  case neg =>
    simp [NavMeshQuery.computePath, h1, h2, h3] at h
  by_cases h4 : (q.findPath
      (q.findNearestPoly start
        ⟨some (opts.filter.getD q.defaultFilter), none⟩).nearestRef
      (q.findNearestPoly finish
        ⟨some (opts.filter.getD q.defaultFilter), none⟩).nearestRef
      start finish ⟨some (opts.filter.getD q.defaultFilter),
        some (opts.maxPathPolys.getD 256)⟩).polys.length = 0
  case pos =>
    simp [NavMeshQuery.computePath, h1, h2, h3, h4] at h
  by_cases h5 : (q.findPath
      (q.findNearestPoly start
        ⟨some (opts.filter.getD q.defaultFilter), none⟩).nearestRef
      (q.findNearestPoly finish
        ⟨some (opts.filter.getD q.defaultFilter), none⟩).nearestRef
      start finish ⟨some (opts.filter.getD q.defaultFilter),
        some (opts.maxPathPolys.getD 256)⟩).polys.getD
      ((q.findPath
        (q.findNearestPoly start
          ⟨some (opts.filter.getD q.defaultFilter), none⟩).nearestRef
        (q.findNearestPoly finish
          ⟨some (opts.filter.getD q.defaultFilter), none⟩).nearestRef
        start finish ⟨some (opts.filter.getD q.defaultFilter),
          some (opts.maxPathPolys.getD 256)⟩).polys.length - 1) 0 =
      (q.findNearestPoly finish
        ⟨some (opts.filter.getD q.defaultFilter), none⟩).nearestRef
  case pos =>
    by_cases h7 : (q.findStraightPath start finish
        (q.findPath
          (q.findNearestPoly start
            ⟨some (opts.filter.getD q.defaultFilter), none⟩).nearestRef
          (q.findNearestPoly finish
            ⟨some (opts.filter.getD q.defaultFilter), none⟩).nearestRef
          start finish ⟨some (opts.filter.getD q.defaultFilter),
            some (opts.maxPathPolys.getD 256)⟩).polys
        ⟨opts.maxStraightPathPoints, none⟩).success = true
    case neg =>
      simp only [List.getD_eq_getElem?_getD] at h5 h7
      simp [NavMeshQuery.computePath, NavMeshQuery.computePathFinish,
        h1, h2, h3, h4, h5, h7] at h
    simp only [List.getD_eq_getElem?_getD] at h5 h7 ⊢
    refine ⟨?_, ?_, ?_⟩ <;>
      simp [NavMeshQuery.computePath, NavMeshQuery.computePathFinish,
        h1, h2, h3, h4, h5, h7]
  case neg =>
    by_cases h6 : (q.closestPointOnPoly
        ((q.findPath
          (q.findNearestPoly start
            ⟨some (opts.filter.getD q.defaultFilter), none⟩).nearestRef
          (q.findNearestPoly finish
            ⟨some (opts.filter.getD q.defaultFilter), none⟩).nearestRef
          start finish ⟨some (opts.filter.getD q.defaultFilter),
            some (opts.maxPathPolys.getD 256)⟩).polys.getD
          ((q.findPath
            (q.findNearestPoly start
              ⟨some (opts.filter.getD q.defaultFilter), none⟩).nearestRef
            (q.findNearestPoly finish
              ⟨some (opts.filter.getD q.defaultFilter), none⟩).nearestRef
            start finish ⟨some (opts.filter.getD q.defaultFilter),
              some (opts.maxPathPolys.getD 256)⟩).polys.length - 1) 0)
        finish).success = true
    case neg =>
      simp only [List.getD_eq_getElem?_getD] at h5 h6
      simp [NavMeshQuery.computePath, NavMeshQuery.computePathFinish,
        h1, h2, h3, h4, h5, h6] at h
    by_cases h7 : (q.findStraightPath start
        (q.closestPointOnPoly
          ((q.findPath
            (q.findNearestPoly start
              ⟨some (opts.filter.getD q.defaultFilter), none⟩).nearestRef
            (q.findNearestPoly finish
              ⟨some (opts.filter.getD q.defaultFilter), none⟩).nearestRef
            start finish ⟨some (opts.filter.getD q.defaultFilter),
              some (opts.maxPathPolys.getD 256)⟩).polys.getD
            ((q.findPath
              (q.findNearestPoly start
                ⟨some (opts.filter.getD q.defaultFilter), none⟩).nearestRef
              (q.findNearestPoly finish
                ⟨some (opts.filter.getD q.defaultFilter), none⟩).nearestRef
              start finish ⟨some (opts.filter.getD q.defaultFilter),
                some (opts.maxPathPolys.getD 256)⟩).polys.length - 1) 0)
          finish).closestPoint
        (q.findPath
          (q.findNearestPoly start
            ⟨some (opts.filter.getD q.defaultFilter), none⟩).nearestRef
          (q.findNearestPoly finish
            ⟨some (opts.filter.getD q.defaultFilter), none⟩).nearestRef
          start finish ⟨some (opts.filter.getD q.defaultFilter),
            some (opts.maxPathPolys.getD 256)⟩).polys
        ⟨opts.maxStraightPathPoints, none⟩).success = true
    case neg =>
      simp only [List.getD_eq_getElem?_getD] at h5 h6 h7
      simp [NavMeshQuery.computePath, NavMeshQuery.computePathFinish,
        h1, h2, h3, h4, h5, h6, h7] at h
    simp only [List.getD_eq_getElem?_getD] at h5 h6 h7 ⊢
    refine ⟨?_, ?_, ?_⟩ <;>
      simp [NavMeshQuery.computePath, NavMeshQuery.computePathFinish,
        h1, h2, h3, h4, h5, h6, h7]

/-- Witness for C10 on the one-square mesh, where computePath succeeds
with a 2-point path. -/
theorem computePath_success_format_witness :
    ((squareMesh.query).computePath ⟨0, 0, 0⟩ ⟨1/2, 0, 1/2⟩
        ⟨none, none, none⟩).1.path =
      (List.range (2 : ℕ)).map (fun i =>
        (⟨([0, 0, 0, 1/2, 0, 1/2] : List ℚ).getD (i * 3) 0,
          ([0, 0, 0, 1/2, 0, 1/2] : List ℚ).getD (i * 3 + 1) 0,
          ([0, 0, 0, 1/2, 0, 1/2] : List ℚ).getD (i * 3 + 2) 0⟩ : Vec3)) ∧
    ((squareMesh.query).computePath ⟨0, 0, 0⟩ ⟨1/2, 0, 1/2⟩
        ⟨none, none, none⟩).1.path.length = 2 ∧
    ((squareMesh.query).computePath ⟨0, 0, 0⟩ ⟨1/2, 0, 1/2⟩
        ⟨none, none, none⟩).2.getLast? =
      some (TraceCall.findStraightPath ⟨0, 0, 0⟩ ⟨1/2, 0, 1/2⟩ [1] none) :=
  computePath_success_format (squareMesh.query) ⟨0, 0, 0⟩ ⟨1/2, 0, 1/2⟩
    ⟨none, none, none⟩ (squareMesh.query).defaultFilter
    ⟨true, dtSuccess, 1, ⟨0, 0, 0⟩, true⟩
    ⟨true, dtSuccess, 1, ⟨1/2, 0, 1/2⟩, true⟩
    ⟨true, dtSuccess, [1]⟩ ⟨1/2, 0, 1/2⟩
    ⟨true, dtSuccess, [0, 0, 0, 1/2, 0, 1/2], [1, 2], [1, 0], 2⟩
    rfl (by decide) (by decide) (by decide) (by decide) (by decide) (by decide)

/-- C1 (amended): for every corridor produced by a successful findPath
call and every start and end position, findStraightPath over that
corridor — provided the caller's point bound is at least the length of
the full straight path, without which the output is truncated from the
start — succeeds with a non-empty point sequence whose first point is
the start clamped to the first corridor polygon, whose last point is the
end clamped to the last corridor polygon, and whose last point carries
the path-end flag and the polygon reference "none" (0). -/
theorem findStraightPath_roundtrip (m : NavMesh) (sr er : PolyRef)
    (sp ep s2 e2 : Vec3) (fpOpts : FindPathOptions) (maxPts : ℕ)
    (spo : Option ℕ) (corr : List PolyRef) (r : FindStraightPathResult)
    (hcorr : ((m.query).findPath sr er sp ep fpOpts).polys = corr)
    (hfp : ((m.query).findPath sr er sp ep fpOpts).success = true)
    (hmax : (fullStraightPath m corr s2 e2).length ≤ maxPts)
    (hr : (m.query).findStraightPath s2 e2 corr ⟨some maxPts, spo⟩ = r) :
    r.success = true ∧
    1 ≤ r.straightPathCount ∧
    (⟨r.straightPath.getD 0 0, r.straightPath.getD 1 0,
      r.straightPath.getD 2 0⟩ : Vec3) =
      (m.closestPointOnPolyRef (corr.headD 0) s2).1 ∧
    (⟨r.straightPath.getD ((r.straightPathCount - 1) * 3) 0,
      r.straightPath.getD ((r.straightPathCount - 1) * 3 + 1) 0,
      r.straightPath.getD ((r.straightPathCount - 1) * 3 + 2) 0⟩ : Vec3) =
      (m.closestPointOnPolyRef (corr.getLast?.getD 0) e2).1 ∧
    r.straightPathFlags.getD (r.straightPathCount - 1) 0 = dtStraightPathEnd ∧
    r.straightPathRefs.getD (r.straightPathCount - 1) 0 = 0 := by
  rw [wrapper_findPath_native] at hcorr hfp
  have hgood : GoodCorridor m
      (fpOpts.filter.getD (m.query).defaultFilter).raw corr := by
    rw [← hcorr]
    exact findPath_success_sound m _ sr er sp ep _ hfp
  obtain ⟨hne, hall⟩ := hgood
  obtain ⟨p0, rest, rfl⟩ := List.exists_cons_of_ne_nil hne
  have hvalid : ∀ x ∈ p0 :: rest, m.validRef x = true := by
    intro x hx
    have hx2 := hall x hx
    unfold NavMesh.passableRef at hx2
    exact (Bool.and_eq_true_iff.mp hx2).1
  have hhead : m.validRef p0 = true := hvalid p0 (List.mem_cons_self _ _)
  have hlast : m.validRef ((p0 :: rest).getLast?.getD 0) = true := by
    apply hvalid
    rw [List.getLast?_eq_getLast _ (by simp), Option.getD_some]
    exact List.getLast_mem _
  have hshape : ∃ interior, fullStraightPath m (p0 :: rest) s2 e2 =
      (⟨(m.closestPointOnPolyRef p0 s2).1, dtStraightPathStart, p0⟩ ::
        interior) ++
      [⟨(m.closestPointOnPolyRef ((p0 :: rest).getLast?.getD 0) e2).1,
        dtStraightPathEnd, 0⟩] := ⟨_, rfl⟩
  obtain ⟨interior, hfullEq⟩ := hshape
  rw [wrapper_findStraightPath_native] at hr
  simp only [Option.getD_some] at hr
  unfold SpecEngine.findStraightPath at hr
  rw [if_neg (by
    rintro (h | h | h | h)
    · have hlen : 1 ≤ (fullStraightPath m (p0 :: rest) s2 e2).length := by
        rw [hfullEq]
        simp
      omega
    · simp at h
    · exact h (by simpa using hhead)
    · exact h hlast)] at hr
  rw [List.take_of_length_le hmax, if_pos hmax] at hr
  subst hr
  have hlenfull : (fullStraightPath m (p0 :: rest) s2 e2).length =
      interior.length + 2 := by
    rw [hfullEq]
    simp
  have hidx : (fullStraightPath m (p0 :: rest) s2 e2).length - 1 =
      (⟨(m.closestPointOnPolyRef p0 s2).1, dtStraightPathStart, p0⟩ ::
        interior).length := by
    simp [hlenfull]
  have hlt : (fullStraightPath m (p0 :: rest) s2 e2).length - 1 <
      (fullStraightPath m (p0 :: rest) s2 e2).length := by omega
  refine ⟨?_, ?_, ?_, ?_, ?_, ?_⟩
  · norm_num [Detour.statusSucceed, dtSuccess]
  · show 1 ≤ (fullStraightPath m (p0 :: rest) s2 e2).length
    omega
  · show (⟨(flattenPts (fullStraightPath m (p0 :: rest) s2 e2)).getD 0 0,
        (flattenPts (fullStraightPath m (p0 :: rest) s2 e2)).getD 1 0,
        (flattenPts (fullStraightPath m (p0 :: rest) s2 e2)).getD 2 0⟩ :
        Vec3) = (m.closestPointOnPolyRef ((p0 :: rest).headD 0) s2).1
    rw [hfullEq]
    rfl
  · show (⟨(flattenPts (fullStraightPath m (p0 :: rest) s2 e2)).getD
        (((fullStraightPath m (p0 :: rest) s2 e2).length - 1) * 3) 0,
        (flattenPts (fullStraightPath m (p0 :: rest) s2 e2)).getD
        (((fullStraightPath m (p0 :: rest) s2 e2).length - 1) * 3 + 1) 0,
        (flattenPts (fullStraightPath m (p0 :: rest) s2 e2)).getD
        (((fullStraightPath m (p0 :: rest) s2 e2).length - 1) * 3 + 2) 0⟩ :
        Vec3) =
      (m.closestPointOnPolyRef ((p0 :: rest).getLast?.getD 0) e2).1
    rw [flattenPts_getD_x _ _ hlt, flattenPts_getD_y _ _ hlt,
      flattenPts_getD_z _ _ hlt, hidx, hfullEq, getD_concat_length]
  · show (List.map SPVert.flag (fullStraightPath m (p0 :: rest) s2 e2)).getD
        ((fullStraightPath m (p0 :: rest) s2 e2).length - 1) 0 =
      dtStraightPathEnd
    rw [getD_map_of_lt _ _ _ _ hlt, hidx, hfullEq, getD_concat_length]
  · show (List.map SPVert.ref (fullStraightPath m (p0 :: rest) s2 e2)).getD
        ((fullStraightPath m (p0 :: rest) s2 e2).length - 1) 0 = 0
    rw [getD_map_of_lt _ _ _ _ hlt, hidx, hfullEq, getD_concat_length]

/-- Witness for C1 on the one-square mesh with its one-polygon corridor
and a sufficient point bound. -/
theorem findStraightPath_roundtrip_witness :
    ((squareMesh.query).findStraightPath ⟨0, 0, 0⟩ ⟨1/2, 0, 1/2⟩ [1]
      ⟨some 4, none⟩).success = true ∧
    1 ≤ ((squareMesh.query).findStraightPath ⟨0, 0, 0⟩ ⟨1/2, 0, 1/2⟩ [1]
      ⟨some 4, none⟩).straightPathCount ∧
    (⟨((squareMesh.query).findStraightPath ⟨0, 0, 0⟩ ⟨1/2, 0, 1/2⟩ [1]
        ⟨some 4, none⟩).straightPath.getD 0 0,
      ((squareMesh.query).findStraightPath ⟨0, 0, 0⟩ ⟨1/2, 0, 1/2⟩ [1]
        ⟨some 4, none⟩).straightPath.getD 1 0,
      ((squareMesh.query).findStraightPath ⟨0, 0, 0⟩ ⟨1/2, 0, 1/2⟩ [1]
        ⟨some 4, none⟩).straightPath.getD 2 0⟩ : Vec3) =
      (squareMesh.closestPointOnPolyRef (([1] : List PolyRef).headD 0)
        ⟨0, 0, 0⟩).1 ∧
    (⟨((squareMesh.query).findStraightPath ⟨0, 0, 0⟩ ⟨1/2, 0, 1/2⟩ [1]
        ⟨some 4, none⟩).straightPath.getD
        ((((squareMesh.query).findStraightPath ⟨0, 0, 0⟩ ⟨1/2, 0, 1/2⟩ [1]
          ⟨some 4, none⟩).straightPathCount - 1) * 3) 0,
      ((squareMesh.query).findStraightPath ⟨0, 0, 0⟩ ⟨1/2, 0, 1/2⟩ [1]
        ⟨some 4, none⟩).straightPath.getD
        ((((squareMesh.query).findStraightPath ⟨0, 0, 0⟩ ⟨1/2, 0, 1/2⟩ [1]
          ⟨some 4, none⟩).straightPathCount - 1) * 3 + 1) 0,
      ((squareMesh.query).findStraightPath ⟨0, 0, 0⟩ ⟨1/2, 0, 1/2⟩ [1]
        ⟨some 4, none⟩).straightPath.getD
        ((((squareMesh.query).findStraightPath ⟨0, 0, 0⟩ ⟨1/2, 0, 1/2⟩ [1]
          ⟨some 4, none⟩).straightPathCount - 1) * 3 + 2) 0⟩ : Vec3) =
      (squareMesh.closestPointOnPolyRef
        (([1] : List PolyRef).getLast?.getD 0) ⟨1/2, 0, 1/2⟩).1 ∧
    ((squareMesh.query).findStraightPath ⟨0, 0, 0⟩ ⟨1/2, 0, 1/2⟩ [1]
      ⟨some 4, none⟩).straightPathFlags.getD
      (((squareMesh.query).findStraightPath ⟨0, 0, 0⟩ ⟨1/2, 0, 1/2⟩ [1]
        ⟨some 4, none⟩).straightPathCount - 1) 0 = dtStraightPathEnd ∧
    ((squareMesh.query).findStraightPath ⟨0, 0, 0⟩ ⟨1/2, 0, 1/2⟩ [1]
      ⟨some 4, none⟩).straightPathRefs.getD
      (((squareMesh.query).findStraightPath ⟨0, 0, 0⟩ ⟨1/2, 0, 1/2⟩ [1]
        ⟨some 4, none⟩).straightPathCount - 1) 0 = 0 :=
  findStraightPath_roundtrip squareMesh 1 1 ⟨0, 0, 0⟩ ⟨0, 0, 0⟩ ⟨0, 0, 0⟩
    ⟨1/2, 0, 1/2⟩ ⟨none, none⟩ 4 none [1] _
    (by decide) (by decide) (by decide) rfl

/-- C1 is false as stated: over the two-square mesh, findPath produces
the corridor [1, 2], but findStraightPath over that corridor with a
point bound of 1 returns a single point — the clamped start, flagged
path-start, with the first polygon's reference — so the last returned
point is not the clamped end, is not flagged path-end, and its
reference is not "none". -/
theorem findStraightPath_roundtrip_cex :
    ((twoSquareMesh.query).findPath 1 2 ⟨1/2, 0, 1/2⟩ ⟨3/2, 0, 1/2⟩
      ⟨none, none⟩).success = true ∧
    ((twoSquareMesh.query).findPath 1 2 ⟨1/2, 0, 1/2⟩ ⟨3/2, 0, 1/2⟩
      ⟨none, none⟩).polys = [1, 2] ∧
    ((twoSquareMesh.query).findStraightPath ⟨1/2, 0, 1/2⟩ ⟨3/2, 0, 1/2⟩ [1, 2]
      ⟨some 1, none⟩).success = true ∧
    ((twoSquareMesh.query).findStraightPath ⟨1/2, 0, 1/2⟩ ⟨3/2, 0, 1/2⟩ [1, 2]
      ⟨some 1, none⟩).straightPathCount = 1 ∧
    ((twoSquareMesh.query).findStraightPath ⟨1/2, 0, 1/2⟩ ⟨3/2, 0, 1/2⟩ [1, 2]
      ⟨some 1, none⟩).straightPathFlags.getD 0 0 ≠ dtStraightPathEnd ∧
    ((twoSquareMesh.query).findStraightPath ⟨1/2, 0, 1/2⟩ ⟨3/2, 0, 1/2⟩ [1, 2]
      ⟨some 1, none⟩).straightPathRefs.getD 0 0 ≠ 0 ∧
    ¬ ((⟨((twoSquareMesh.query).findStraightPath ⟨1/2, 0, 1/2⟩ ⟨3/2, 0, 1/2⟩
          [1, 2] ⟨some 1, none⟩).straightPath.getD 0 0,
        ((twoSquareMesh.query).findStraightPath ⟨1/2, 0, 1/2⟩ ⟨3/2, 0, 1/2⟩
          [1, 2] ⟨some 1, none⟩).straightPath.getD 1 0,
        ((twoSquareMesh.query).findStraightPath ⟨1/2, 0, 1/2⟩ ⟨3/2, 0, 1/2⟩
          [1, 2] ⟨some 1, none⟩).straightPath.getD 2 0⟩ : Vec3) =
      (twoSquareMesh.closestPointOnPolyRef
        (([1, 2] : List PolyRef).getLast?.getD 0) ⟨3/2, 0, 1/2⟩).1) := by
  refine ⟨by decide, by decide, by decide, by decide, by decide, by decide,
    by decide⟩

/-- C9: repeating any identical non-random query against an unmodified
mesh returns an identical result — deterministic queries depend only on
the mesh and the arguments, not on the scratch state the previous call
left behind (the random-point operations, which advance the RNG, are
the excluded exception). -/
theorem repeated_queries_return_identical_results (m : NavMesh) :
    (∀ pos opts s, (StatefulQuery.findNearestPoly m pos opts
        (StatefulQuery.findNearestPoly m pos opts s).2).1 =
      (StatefulQuery.findNearestPoly m pos opts s).1) ∧
    (∀ sr c rad opts s, (StatefulQuery.findPolysAroundCircle m sr c rad opts
        (StatefulQuery.findPolysAroundCircle m sr c rad opts s).2).1 =
      (StatefulQuery.findPolysAroundCircle m sr c rad opts s).1) ∧
    (∀ c he opts s, (StatefulQuery.queryPolygons m c he opts
        (StatefulQuery.queryPolygons m c he opts s).2).1 =
      (StatefulQuery.queryPolygons m c he opts s).1) ∧
    (∀ r pos s, (StatefulQuery.closestPointOnPoly m r pos
        (StatefulQuery.closestPointOnPoly m r pos s).2).1 =
      (StatefulQuery.closestPointOnPoly m r pos s).1) ∧
    (∀ pos opts s, (StatefulQuery.getClosestPoint m pos opts
        (StatefulQuery.getClosestPoint m pos opts s).2).1 =
      (StatefulQuery.getClosestPoint m pos opts s).1) ∧
    (∀ sr sp ep opts s, (StatefulQuery.moveAlongSurface m sr sp ep opts
        (StatefulQuery.moveAlongSurface m sr sp ep opts s).2).1 =
      (StatefulQuery.moveAlongSurface m sr sp ep opts s).1) ∧
    (∀ r pos s, (StatefulQuery.getPolyHeight m r pos
        (StatefulQuery.getPolyHeight m r pos s).2).1 =
      (StatefulQuery.getPolyHeight m r pos s).1) ∧
    (∀ sr er sp ep opts s, (StatefulQuery.findPath m sr er sp ep opts
        (StatefulQuery.findPath m sr er sp ep opts s).2).1 =
      (StatefulQuery.findPath m sr er sp ep opts s).1) ∧
    (∀ st fin path opts s, (StatefulQuery.findStraightPath m st fin path opts
        (StatefulQuery.findStraightPath m st fin path opts s).2).1 =
      (StatefulQuery.findStraightPath m st fin path opts s).1) := by
  refine ⟨?_, ?_, ?_, ?_, ?_, ?_, ?_, ?_, ?_⟩ <;> intros <;> rfl

end RecastNav
